import Mathlib

/-!
Verification of the `terraform-provider-unifi-network` provider
(`internal/provider/*.go`).

The repository is a Terraform plugin: every resource follows the template
Metadata / Schema / Configure / Create / Read / Update / Delete.  Each
handler fetches a typed model from plan or state, copies attribute values
into a request struct of the `unifi-client-go` SDK, invokes one SDK client
method, and (for Create/Read/Update) writes a model back into Terraform
state.  This file gives a shallow embedding of those handlers:

* `TFValue α` models a terraform-plugin-framework attribute value
  (`types.String`, `types.Bool`, `types.Int64`, `types.List`), which is
  null, unknown, or a concrete value; the `ValueString`/`ValueBool`/
  `ValueInt64` accessors return the Go zero value on null/unknown.
* Each Go resource model struct (`NetworkResourceModel`, ...) becomes a
  Lean structure of `TFValue` fields, each SDK request/response struct a
  plain structure (Go pointers become `Option`).
* A handler body becomes a pure function from the decode outcome of
  `req.Plan.Get` / `req.State.Get` (`Except Diag model`: `.error d` is the
  case where the framework appended error diagnostics) and the SDK client
  (a record of the client methods the resource's file invokes, each a
  function returning `Except GoError response`) to a `HandlerResult`:
  the diagnostics added, the model passed to `resp.State.Set` (if any),
  and the ordered list of SDK calls performed.

Go code is translated line by line; each definition cites its source file
and lines.  Logging (`tflog`) has no observable effect and is dropped.
-/

/-- A Go error rendered by `fmt.Sprintf("...: %s", err)`: its string. -/
abbrev GoError := String

/-- A terraform-plugin-framework attribute value: null, unknown, or known.
Models `types.String` / `types.Bool` / `types.Int64` / `types.List`. -/
inductive TFValue (α : Type) where
  | null
  | unknown
  | value (a : α)
  deriving DecidableEq, Repr

namespace TFValue

/-- `IsNull()` of the framework value. -/
def isNull : TFValue α → Bool
  | .null => true
  | _ => false

/-- `IsUnknown()` of the framework value. -/
def isUnknown : TFValue α → Bool
  | .unknown => true
  | _ => false

/-- `ValueString()`: the value, or the Go zero value `""` on null/unknown. -/
def valueString : TFValue String → String
  | .value s => s
  | _ => ""

/-- `ValueBool()`: the value, or `false` on null/unknown. -/
def valueBool : TFValue Bool → Bool
  | .value b => b
  | _ => false

/-- `ValueInt64()`: the value, or `0` on null/unknown. -/
def valueInt64 : TFValue Int → Int
  | .value i => i
  | _ => 0

end TFValue

/-- One diagnostic: `AddError(summary, detail)` leaves `attrPath = none`,
`AddAttributeError(path.Root(p), summary, detail)` records `some p`. -/
structure Diag where
  summary : String
  detail : String
  attrPath : Option String := none
  deriving DecidableEq, Repr

/-- What a resource handler did: the diagnostics it appended, the model it
passed to `resp.State.Set` (`none` = `State.Set` never called), and the SDK
client calls it performed, in order. -/
structure HandlerResult (σ : Type) (κ : Type) where
  diags : List Diag
  state : Option σ
  calls : List κ
  deriving DecidableEq, Repr

/-! ## Network resource — `internal/provider/network_resource.go` -/

/-- `NetworkResourceModel` (network_resource.go:35-45). -/
structure NetworkResourceModel where
  siteID : TFValue String
  id : TFValue String
  name : TFValue String
  enabled : TFValue Bool
  vlanID : TFValue Int
  management : TFValue String
  isolationEnabled : TFValue Bool
  internetAccessEnabled : TFValue Bool
  mdnsForwardingEnabled : TFValue Bool
  deriving DecidableEq, Repr

/-- `networktypes.CreateNetworkRequest` as filled by Create
(network_resource.go:147-156); the three `*bool` fields point at locals
that are always set, so they are `Bool` here. -/
structure CreateNetworkRequest where
  siteID : String
  name : String
  enabled : Bool
  vlanID : Int
  management : String
  isolationEnabled : Bool
  internetAccessEnabled : Bool
  mdnsForwardingEnabled : Bool
  deriving DecidableEq, Repr

/-- `networktypes.GetNetworkDetailsRequest` (network_resource.go:186-189). -/
structure GetNetworkDetailsRequest where
  siteID : String
  networkID : String
  deriving DecidableEq, Repr

/-- `networktypes.UpdateNetworkRequest` as filled by Update
(network_resource.go:230-240). -/
structure UpdateNetworkRequest where
  siteID : String
  networkID : String
  name : String
  enabled : Bool
  vlanID : Int
  management : String
  isolationEnabled : Bool
  internetAccessEnabled : Bool
  mdnsForwardingEnabled : Bool
  deriving DecidableEq, Repr

/-- `networktypes.DeleteNetworkRequest` (network_resource.go:264-267). -/
structure DeleteNetworkRequest where
  siteID : String
  networkID : String
  deriving DecidableEq, Repr

/-- The SDK network object returned by `CreateNetwork`, `GetNetworkDetails`
and `UpdateNetwork` (the fields the resource file reads; `*bool` fields are
`Option Bool`). -/
structure NetworkInfo where
  id : String
  name : String
  enabled : Bool
  vlanID : Int
  management : String
  isolationEnabled : Option Bool
  internetAccessEnabled : Option Bool
  mdnsForwardingEnabled : Option Bool
  deriving DecidableEq, Repr

/-- The four `network.Client` methods `network_resource.go` invokes.
`DeleteNetwork` returns only an error (`err := r.client.DeleteNetwork`),
so success carries `Unit`. -/
structure NetworkClient where
  createNetwork : CreateNetworkRequest → Except GoError NetworkInfo
  getNetworkDetails : GetNetworkDetailsRequest → Except GoError NetworkInfo
  updateNetwork : UpdateNetworkRequest → Except GoError NetworkInfo
  deleteNetwork : DeleteNetworkRequest → Except GoError Unit

/-- One performed call on the network resource's client. -/
inductive NetworkCall where
  | createNetwork (req : CreateNetworkRequest)
  | getNetworkDetails (req : GetNetworkDetailsRequest)
  | updateNetwork (req : UpdateNetworkRequest)
  | deleteNetwork (req : DeleteNetworkRequest)
  deriving DecidableEq, Repr

/-- The `createReq` literal of `NetworkResource.Create`
(network_resource.go:143-156). -/
def networkCreateRequest (data : NetworkResourceModel) : CreateNetworkRequest :=
  { siteID := data.siteID.valueString
    name := data.name.valueString
    enabled := data.enabled.valueBool
    vlanID := data.vlanID.valueInt64
    management := data.management.valueString
    isolationEnabled := data.isolationEnabled.valueBool
    internetAccessEnabled := data.internetAccessEnabled.valueBool
    mdnsForwardingEnabled := data.mdnsForwardingEnabled.valueBool }

/-- The request literal of `NetworkResource.Read` (network_resource.go:186-189). -/
def networkGetRequest (data : NetworkResourceModel) : GetNetworkDetailsRequest :=
  { siteID := data.siteID.valueString, networkID := data.id.valueString }

/-- The `updateReq` literal of `NetworkResource.Update`
(network_resource.go:226-240). -/
def networkUpdateRequest (data : NetworkResourceModel) : UpdateNetworkRequest :=
  { siteID := data.siteID.valueString
    networkID := data.id.valueString
    name := data.name.valueString
    enabled := data.enabled.valueBool
    vlanID := data.vlanID.valueInt64
    management := data.management.valueString
    isolationEnabled := data.isolationEnabled.valueBool
    internetAccessEnabled := data.internetAccessEnabled.valueBool
    mdnsForwardingEnabled := data.mdnsForwardingEnabled.valueBool }

/-- The request literal of `NetworkResource.Delete` (network_resource.go:264-267). -/
def networkDeleteRequest (data : NetworkResourceModel) : DeleteNetworkRequest :=
  { siteID := data.siteID.valueString, networkID := data.id.valueString }

/-- `NetworkResource.Create` (network_resource.go:130-171). -/
def NetworkResource.create (decoded : Except Diag NetworkResourceModel)
    (client : NetworkClient) : HandlerResult NetworkResourceModel NetworkCall :=
  match decoded with
  | .error d => ⟨[d], none, []⟩
  | .ok data =>
    let createReq := networkCreateRequest data
    match client.createNetwork createReq with
    | .error err =>
      ⟨[⟨"Client Error", "Unable to create network: " ++ err, none⟩], none,
        [.createNetwork createReq]⟩
    | .ok networkResp =>
      ⟨[], some { data with id := .value networkResp.id }, [.createNetwork createReq]⟩

/-- `NetworkResource.Read` (network_resource.go:173-211): on success the
response's fields replace the state model's, the three optional fields only
when the response carries them. -/
def NetworkResource.read (decoded : Except Diag NetworkResourceModel)
    (client : NetworkClient) : HandlerResult NetworkResourceModel NetworkCall :=
  match decoded with
  | .error d => ⟨[d], none, []⟩
  | .ok data =>
    let getReq := networkGetRequest data
    match client.getNetworkDetails getReq with
    | .error err =>
      ⟨[⟨"Client Error", "Unable to read network: " ++ err, none⟩], none,
        [.getNetworkDetails getReq]⟩
    | .ok networkResp =>
      let data := { data with
        name := .value networkResp.name
        enabled := .value networkResp.enabled
        vlanID := .value networkResp.vlanID
        management := .value networkResp.management }
      let data := match networkResp.isolationEnabled with
        | some b => { data with isolationEnabled := .value b }
        | none => data
      let data := match networkResp.internetAccessEnabled with
        | some b => { data with internetAccessEnabled := .value b }
        | none => data
      let data := match networkResp.mdnsForwardingEnabled with
        | some b => { data with mdnsForwardingEnabled := .value b }
        | none => data
      ⟨[], some data, [.getNetworkDetails getReq]⟩

/-- `NetworkResource.Update` (network_resource.go:213-249): the response of
`UpdateNetwork` is discarded (`_, err :=`); on success the plan model is
written to state unchanged. -/
def NetworkResource.update (decoded : Except Diag NetworkResourceModel)
    (client : NetworkClient) : HandlerResult NetworkResourceModel NetworkCall :=
  match decoded with
  | .error d => ⟨[d], none, []⟩
  | .ok data =>
    let updateReq := networkUpdateRequest data
    match client.updateNetwork updateReq with
    | .error err =>
      ⟨[⟨"Client Error", "Unable to update network: " ++ err, none⟩], none,
        [.updateNetwork updateReq]⟩
    | .ok _ => ⟨[], some data, [.updateNetwork updateReq]⟩

/-- `NetworkResource.Delete` (network_resource.go:251-272): no `State.Set`
on any path. -/
def NetworkResource.delete (decoded : Except Diag NetworkResourceModel)
    (client : NetworkClient) : HandlerResult NetworkResourceModel NetworkCall :=
  match decoded with
  | .error d => ⟨[d], none, []⟩
  | .ok data =>
    let deleteReq := networkDeleteRequest data
    match client.deleteNetwork deleteReq with
    | .error err =>
      ⟨[⟨"Client Error", "Unable to delete network: " ++ err, none⟩], none,
        [.deleteNetwork deleteReq]⟩
    | .ok _ => ⟨[], none, [.deleteNetwork deleteReq]⟩

/-! ## WiFi broadcast resource — `WifiBroadcastResource` (wifi broadcast
resource file, in `src/unnamed/part_000`-style listing it is the first part
of `src/unnamed/part_003`) -/

/-- `WifiBroadcastResourceModel`. -/
structure WifiBroadcastResourceModel where
  siteID : TFValue String
  id : TFValue String
  name : TFValue String
  type : TFValue String
  enabled : TFValue Bool
  networkID : TFValue String
  securityType : TFValue String
  passphrase : TFValue String
  hideName : TFValue Bool
  clientIsolationEnabled : TFValue Bool
  deriving DecidableEq, Repr

/-- `networktypes.WifiNetworkReference`. -/
structure WifiNetworkReference where
  type : String
  networkID : String
  deriving DecidableEq, Repr

/-- `networktypes.WifiSecurityConfiguration`; `passphrase` keeps the Go
zero value `""` when not set. -/
structure WifiSecurityConfiguration where
  type : String
  passphrase : String := ""
  deriving DecidableEq, Repr

/-- `networktypes.CreateWifiBroadcastRequest` as filled by Create. -/
structure CreateWifiBroadcastRequest where
  siteID : String
  name : String
  type : String
  enabled : Bool
  hideName : Bool
  clientIsolationEnabled : Bool
  network : Option WifiNetworkReference := none
  securityConfiguration : Option WifiSecurityConfiguration := none
  deriving DecidableEq, Repr

/-- `networktypes.GetWifiBroadcastDetailsRequest`. -/
structure GetWifiBroadcastDetailsRequest where
  siteID : String
  wifiBroadcastID : String
  deriving DecidableEq, Repr

/-- `networktypes.UpdateWifiBroadcastRequest` as filled by Update. -/
structure UpdateWifiBroadcastRequest where
  siteID : String
  wifiBroadcastID : String
  name : String
  type : String
  enabled : Bool
  hideName : Bool
  clientIsolationEnabled : Bool
  network : Option WifiNetworkReference := none
  securityConfiguration : Option WifiSecurityConfiguration := none
  deriving DecidableEq, Repr

/-- `networktypes.DeleteWifiBroadcastRequest`. -/
structure DeleteWifiBroadcastRequest where
  siteID : String
  wifiBroadcastID : String
  deriving DecidableEq, Repr

/-- The SDK WiFi broadcast object (fields the resource file reads). -/
structure WifiBroadcastInfo where
  id : String
  name : String
  type : String
  enabled : Bool
  hideName : Bool
  clientIsolationEnabled : Bool
  network : Option WifiNetworkReference
  securityConfiguration : Option WifiSecurityConfiguration
  deriving DecidableEq, Repr

/-- The `network.Client` methods the WiFi broadcast resource invokes. -/
structure WifiBroadcastClient where
  createWifiBroadcast : CreateWifiBroadcastRequest → Except GoError WifiBroadcastInfo
  getWifiBroadcastDetails : GetWifiBroadcastDetailsRequest → Except GoError WifiBroadcastInfo
  updateWifiBroadcast : UpdateWifiBroadcastRequest → Except GoError WifiBroadcastInfo
  deleteWifiBroadcast : DeleteWifiBroadcastRequest → Except GoError Unit

/-- One performed call on the WiFi broadcast resource's client. -/
inductive WifiBroadcastCall where
  | createWifiBroadcast (req : CreateWifiBroadcastRequest)
  | getWifiBroadcastDetails (req : GetWifiBroadcastDetailsRequest)
  | updateWifiBroadcast (req : UpdateWifiBroadcastRequest)
  | deleteWifiBroadcast (req : DeleteWifiBroadcastRequest)
  deriving DecidableEq, Repr

/-- The `createReq` of `WifiBroadcastResource.Create`: the base literal,
the network reference when `network_id` is neither null nor unknown, the
security configuration when `security_type` is non-null (its passphrase
only when `passphrase` is neither null nor unknown). -/
def wifiBroadcastCreateRequest (data : WifiBroadcastResourceModel) :
    CreateWifiBroadcastRequest :=
  let createReq : CreateWifiBroadcastRequest :=
    { siteID := data.siteID.valueString
      name := data.name.valueString
      type := data.type.valueString
      enabled := data.enabled.valueBool
      hideName := data.hideName.valueBool
      clientIsolationEnabled := data.clientIsolationEnabled.valueBool }
  let createReq :=
    if !data.networkID.isNull && !data.networkID.isUnknown then
      let ref : WifiNetworkReference :=
        { type := "network", networkID := data.networkID.valueString }
      { createReq with network := some ref }
    else createReq
  if !data.securityType.isNull then
    let securityConfig : WifiSecurityConfiguration :=
      { type := data.securityType.valueString }
    let securityConfig :=
      if !data.passphrase.isNull && !data.passphrase.isUnknown then
        { securityConfig with passphrase := data.passphrase.valueString }
      else securityConfig
    { createReq with securityConfiguration := some securityConfig }
  else createReq

/-- The request literal of `WifiBroadcastResource.Read`. -/
def wifiBroadcastGetRequest (data : WifiBroadcastResourceModel) :
    GetWifiBroadcastDetailsRequest :=
  { siteID := data.siteID.valueString, wifiBroadcastID := data.id.valueString }

/-- The `updateReq` of `WifiBroadcastResource.Update`, built exactly as in
Create plus the broadcast id. -/
def wifiBroadcastUpdateRequest (data : WifiBroadcastResourceModel) :
    UpdateWifiBroadcastRequest :=
  let updateReq : UpdateWifiBroadcastRequest :=
    { siteID := data.siteID.valueString
      wifiBroadcastID := data.id.valueString
      name := data.name.valueString
      type := data.type.valueString
      enabled := data.enabled.valueBool
      hideName := data.hideName.valueBool
      clientIsolationEnabled := data.clientIsolationEnabled.valueBool }
  let updateReq :=
    if !data.networkID.isNull && !data.networkID.isUnknown then
      let ref : WifiNetworkReference :=
        { type := "network", networkID := data.networkID.valueString }
      { updateReq with network := some ref }
    else updateReq
  if !data.securityType.isNull then
    let securityConfig : WifiSecurityConfiguration :=
      { type := data.securityType.valueString }
    let securityConfig :=
      if !data.passphrase.isNull && !data.passphrase.isUnknown then
        { securityConfig with passphrase := data.passphrase.valueString }
      else securityConfig
    { updateReq with securityConfiguration := some securityConfig }
  else updateReq

/-- The request literal of `WifiBroadcastResource.Delete`. -/
def wifiBroadcastDeleteRequest (data : WifiBroadcastResourceModel) :
    DeleteWifiBroadcastRequest :=
  { siteID := data.siteID.valueString, wifiBroadcastID := data.id.valueString }

/-- `WifiBroadcastResource.Create`. -/
def WifiBroadcastResource.create (decoded : Except Diag WifiBroadcastResourceModel)
    (client : WifiBroadcastClient) :
    HandlerResult WifiBroadcastResourceModel WifiBroadcastCall :=
  match decoded with
  | .error d => ⟨[d], none, []⟩
  | .ok data =>
    let createReq := wifiBroadcastCreateRequest data
    match client.createWifiBroadcast createReq with
    | .error err =>
      ⟨[⟨"Client Error", "Unable to create WiFi broadcast: " ++ err, none⟩], none,
        [.createWifiBroadcast createReq]⟩
    | .ok wifiResp =>
      ⟨[], some { data with id := .value wifiResp.id }, [.createWifiBroadcast createReq]⟩

/-- `WifiBroadcastResource.Read`: response fields replace the state model's;
`network_id` and `security_type` only when the response carries them. -/
def WifiBroadcastResource.read (decoded : Except Diag WifiBroadcastResourceModel)
    (client : WifiBroadcastClient) :
    HandlerResult WifiBroadcastResourceModel WifiBroadcastCall :=
  match decoded with
  | .error d => ⟨[d], none, []⟩
  | .ok data =>
    let getReq := wifiBroadcastGetRequest data
    match client.getWifiBroadcastDetails getReq with
    | .error err =>
      ⟨[⟨"Client Error", "Unable to read WiFi broadcast: " ++ err, none⟩], none,
        [.getWifiBroadcastDetails getReq]⟩
    | .ok wifiResp =>
      let data := { data with
        name := .value wifiResp.name
        type := .value wifiResp.type
        enabled := .value wifiResp.enabled
        hideName := .value wifiResp.hideName
        clientIsolationEnabled := .value wifiResp.clientIsolationEnabled }
      let data := match wifiResp.network with
        | some ref => { data with networkID := .value ref.networkID }
        | none => data
      let data := match wifiResp.securityConfiguration with
        | some sec => { data with securityType := .value sec.type }
        | none => data
      ⟨[], some data, [.getWifiBroadcastDetails getReq]⟩

/-- `WifiBroadcastResource.Update`: the response is discarded (`_, err :=`);
on success the plan model is written to state unchanged. -/
def WifiBroadcastResource.update (decoded : Except Diag WifiBroadcastResourceModel)
    (client : WifiBroadcastClient) :
    HandlerResult WifiBroadcastResourceModel WifiBroadcastCall :=
  match decoded with
  | .error d => ⟨[d], none, []⟩
  | .ok data =>
    let updateReq := wifiBroadcastUpdateRequest data
    match client.updateWifiBroadcast updateReq with
    | .error err =>
      ⟨[⟨"Client Error", "Unable to update WiFi broadcast: " ++ err, none⟩], none,
        [.updateWifiBroadcast updateReq]⟩
    | .ok _ => ⟨[], some data, [.updateWifiBroadcast updateReq]⟩

/-- `WifiBroadcastResource.Delete`: no `State.Set` on any path. -/
def WifiBroadcastResource.delete (decoded : Except Diag WifiBroadcastResourceModel)
    (client : WifiBroadcastClient) :
    HandlerResult WifiBroadcastResourceModel WifiBroadcastCall :=
  match decoded with
  | .error d => ⟨[d], none, []⟩
  | .ok data =>
    let deleteReq := wifiBroadcastDeleteRequest data
    match client.deleteWifiBroadcast deleteReq with
    | .error err =>
      ⟨[⟨"Client Error", "Unable to delete WiFi broadcast: " ++ err, none⟩], none,
        [.deleteWifiBroadcast deleteReq]⟩
    | .ok _ => ⟨[], none, [.deleteWifiBroadcast deleteReq]⟩

/-! ## ACL rule resource — `internal/provider/acl_rule_resource.go`
(first `ACLRuleResource` in the file, lines 26-201) -/

/-- `ACLRuleResourceModel`. -/
structure ACLRuleResourceModel where
  siteID : TFValue String
  id : TFValue String
  type : TFValue String
  name : TFValue String
  description : TFValue String
  enabled : TFValue Bool
  action : TFValue String
  deriving DecidableEq, Repr

/-- `networktypes.CreateACLRuleRequest` as filled by Create. -/
structure CreateACLRuleRequest where
  siteID : String
  type : String
  name : String
  description : String
  enabled : Bool
  action : String
  deriving DecidableEq, Repr

/-- `networktypes.GetACLRuleRequest`. -/
structure GetACLRuleRequest where
  siteID : String
  ruleID : String
  deriving DecidableEq, Repr

/-- `networktypes.UpdateACLRuleRequest` as filled by Update. -/
structure UpdateACLRuleRequest where
  siteID : String
  ruleID : String
  type : String
  name : String
  description : String
  enabled : Bool
  action : String
  deriving DecidableEq, Repr

/-- `networktypes.DeleteACLRuleRequest`. -/
structure DeleteACLRuleRequest where
  siteID : String
  ruleID : String
  deriving DecidableEq, Repr

/-- The SDK ACL rule object (fields the resource file reads). -/
structure ACLRuleInfo where
  id : String
  type : String
  name : String
  description : String
  enabled : Bool
  action : String
  deriving DecidableEq, Repr

/-- The `network.Client` methods the ACL rule resource invokes. -/
structure ACLRuleClient where
  createACLRule : CreateACLRuleRequest → Except GoError ACLRuleInfo
  getACLRule : GetACLRuleRequest → Except GoError ACLRuleInfo
  updateACLRule : UpdateACLRuleRequest → Except GoError ACLRuleInfo
  deleteACLRule : DeleteACLRuleRequest → Except GoError Unit

/-- One performed call on the ACL rule resource's client. -/
inductive ACLRuleCall where
  | createACLRule (req : CreateACLRuleRequest)
  | getACLRule (req : GetACLRuleRequest)
  | updateACLRule (req : UpdateACLRuleRequest)
  | deleteACLRule (req : DeleteACLRuleRequest)
  deriving DecidableEq, Repr

/-- The `createReq` literal of `ACLRuleResource.Create` (lines 113-120). -/
def aclRuleCreateRequest (data : ACLRuleResourceModel) : CreateACLRuleRequest :=
  { siteID := data.siteID.valueString
    type := data.type.valueString
    name := data.name.valueString
    description := data.description.valueString
    enabled := data.enabled.valueBool
    action := data.action.valueString }

/-- The request literal of `ACLRuleResource.Read` (lines 138-141). -/
def aclRuleGetRequest (data : ACLRuleResourceModel) : GetACLRuleRequest :=
  { siteID := data.siteID.valueString, ruleID := data.id.valueString }

/-- The `updateReq` literal of `ACLRuleResource.Update` (lines 164-172). -/
def aclRuleUpdateRequest (data : ACLRuleResourceModel) : UpdateACLRuleRequest :=
  { siteID := data.siteID.valueString
    ruleID := data.id.valueString
    type := data.type.valueString
    name := data.name.valueString
    description := data.description.valueString
    enabled := data.enabled.valueBool
    action := data.action.valueString }

/-- The request literal of `ACLRuleResource.Delete` (lines 189-192). -/
def aclRuleDeleteRequest (data : ACLRuleResourceModel) : DeleteACLRuleRequest :=
  { siteID := data.siteID.valueString, ruleID := data.id.valueString }

/-- `ACLRuleResource.Create` (lines 104-130). -/
def ACLRuleResource.create (decoded : Except Diag ACLRuleResourceModel)
    (client : ACLRuleClient) : HandlerResult ACLRuleResourceModel ACLRuleCall :=
  match decoded with
  | .error d => ⟨[d], none, []⟩
  | .ok data =>
    let createReq := aclRuleCreateRequest data
    match client.createACLRule createReq with
    | .error err =>
      ⟨[⟨"Client Error", "Unable to create ACL rule: " ++ err, none⟩], none,
        [.createACLRule createReq]⟩
    | .ok result =>
      ⟨[], some { data with id := .value result.id }, [.createACLRule createReq]⟩

/-- `ACLRuleResource.Read` (lines 132-156). -/
def ACLRuleResource.read (decoded : Except Diag ACLRuleResourceModel)
    (client : ACLRuleClient) : HandlerResult ACLRuleResourceModel ACLRuleCall :=
  match decoded with
  | .error d => ⟨[d], none, []⟩
  | .ok data =>
    let getReq := aclRuleGetRequest data
    match client.getACLRule getReq with
    | .error err =>
      ⟨[⟨"Client Error", "Unable to read ACL rule: " ++ err, none⟩], none,
        [.getACLRule getReq]⟩
    | .ok result =>
      ⟨[], some { data with
          type := .value result.type
          name := .value result.name
          description := .value result.description
          enabled := .value result.enabled
          action := .value result.action }, [.getACLRule getReq]⟩

/-- `ACLRuleResource.Update` (lines 157-182): the response is discarded
(`_, err :=`); on success the plan model is written to state unchanged. -/
def ACLRuleResource.update (decoded : Except Diag ACLRuleResourceModel)
    (client : ACLRuleClient) : HandlerResult ACLRuleResourceModel ACLRuleCall :=
  match decoded with
  | .error d => ⟨[d], none, []⟩
  | .ok data =>
    let updateReq := aclRuleUpdateRequest data
    match client.updateACLRule updateReq with
    | .error err =>
      ⟨[⟨"Client Error", "Unable to update ACL rule: " ++ err, none⟩], none,
        [.updateACLRule updateReq]⟩
    | .ok _ => ⟨[], some data, [.updateACLRule updateReq]⟩

/-- `ACLRuleResource.Delete` (lines 183-199): no `State.Set` on any path. -/
def ACLRuleResource.delete (decoded : Except Diag ACLRuleResourceModel)
    (client : ACLRuleClient) : HandlerResult ACLRuleResourceModel ACLRuleCall :=
  match decoded with
  | .error d => ⟨[d], none, []⟩
  | .ok data =>
    let deleteReq := aclRuleDeleteRequest data
    match client.deleteACLRule deleteReq with
    | .error err =>
      ⟨[⟨"Client Error", "Unable to delete ACL rule: " ++ err, none⟩], none,
        [.deleteACLRule deleteReq]⟩
    | .ok _ => ⟨[], none, [.deleteACLRule deleteReq]⟩

/-! ## DNS policy resource — `DNSPolicyResource`
(`internal/provider/traffic_matching_list_resource.go`, lines 196-384) -/

/-- `DNSPolicyResourceModel`. -/
structure DNSPolicyResourceModel where
  siteID : TFValue String
  id : TFValue String
  type : TFValue String
  enabled : TFValue Bool
  domain : TFValue String
  ipv4Address : TFValue String
  ipv6Address : TFValue String
  ttlSeconds : TFValue Int
  deriving DecidableEq, Repr

/-- `networktypes.CreateDNSPolicyRequest` as filled by Create: `TTLSeconds`
is a `*int`, set only when the attribute is non-null. -/
structure CreateDNSPolicyRequest where
  siteID : String
  type : String
  enabled : Bool
  domain : String
  ipv4Address : String
  ipv6Address : String
  ttlSeconds : Option Int := none
  deriving DecidableEq, Repr

/-- `networktypes.GetDNSPolicyRequest`. -/
structure GetDNSPolicyRequest where
  siteID : String
  policyID : String
  deriving DecidableEq, Repr

/-- `networktypes.UpdateDNSPolicyRequest` as filled by Update. -/
structure UpdateDNSPolicyRequest where
  siteID : String
  policyID : String
  type : String
  enabled : Bool
  domain : String
  ipv4Address : String
  ipv6Address : String
  ttlSeconds : Option Int := none
  deriving DecidableEq, Repr

/-- `networktypes.DeleteDNSPolicyRequest`. -/
structure DeleteDNSPolicyRequest where
  siteID : String
  policyID : String
  deriving DecidableEq, Repr

/-- The SDK DNS policy object (fields the resource file reads). -/
structure DNSPolicyInfo where
  id : String
  type : String
  enabled : Bool
  domain : String
  ipv4Address : String
  ipv6Address : String
  ttlSeconds : Option Int
  deriving DecidableEq, Repr

/-- The `network.Client` methods the DNS policy resource invokes. -/
structure DNSPolicyClient where
  createDNSPolicy : CreateDNSPolicyRequest → Except GoError DNSPolicyInfo
  getDNSPolicy : GetDNSPolicyRequest → Except GoError DNSPolicyInfo
  updateDNSPolicy : UpdateDNSPolicyRequest → Except GoError DNSPolicyInfo
  deleteDNSPolicy : DeleteDNSPolicyRequest → Except GoError Unit

/-- One performed call on the DNS policy resource's client. -/
inductive DNSPolicyCall where
  | createDNSPolicy (req : CreateDNSPolicyRequest)
  | getDNSPolicy (req : GetDNSPolicyRequest)
  | updateDNSPolicy (req : UpdateDNSPolicyRequest)
  | deleteDNSPolicy (req : DeleteDNSPolicyRequest)
  deriving DecidableEq, Repr

/-- The `createReq` of `DNSPolicyResource.Create` (lines 284-296): the base
literal, then `TTLSeconds = &ttl` when `ttl_seconds` is non-null. -/
def dnsPolicyCreateRequest (data : DNSPolicyResourceModel) : CreateDNSPolicyRequest :=
  let createReq : CreateDNSPolicyRequest :=
    { siteID := data.siteID.valueString
      type := data.type.valueString
      enabled := data.enabled.valueBool
      domain := data.domain.valueString
      ipv4Address := data.ipv4Address.valueString
      ipv6Address := data.ipv6Address.valueString }
  if !data.ttlSeconds.isNull then
    { createReq with ttlSeconds := some data.ttlSeconds.valueInt64 }
  else createReq

/-- The request literal of `DNSPolicyResource.Read` (lines 315-318). -/
def dnsPolicyGetRequest (data : DNSPolicyResourceModel) : GetDNSPolicyRequest :=
  { siteID := data.siteID.valueString, policyID := data.id.valueString }

/-- The `updateReq` of `DNSPolicyResource.Update` (lines 343-356). -/
def dnsPolicyUpdateRequest (data : DNSPolicyResourceModel) : UpdateDNSPolicyRequest :=
  let updateReq : UpdateDNSPolicyRequest :=
    { siteID := data.siteID.valueString
      policyID := data.id.valueString
      type := data.type.valueString
      enabled := data.enabled.valueBool
      domain := data.domain.valueString
      ipv4Address := data.ipv4Address.valueString
      ipv6Address := data.ipv6Address.valueString }
  if !data.ttlSeconds.isNull then
    { updateReq with ttlSeconds := some data.ttlSeconds.valueInt64 }
  else updateReq

/-- The request literal of `DNSPolicyResource.Delete` (lines 374-377). -/
def dnsPolicyDeleteRequest (data : DNSPolicyResourceModel) : DeleteDNSPolicyRequest :=
  { siteID := data.siteID.valueString, policyID := data.id.valueString }

/-- `DNSPolicyResource.Create` (lines 275-306). -/
def DNSPolicyResource.create (decoded : Except Diag DNSPolicyResourceModel)
    (client : DNSPolicyClient) : HandlerResult DNSPolicyResourceModel DNSPolicyCall :=
  match decoded with
  | .error d => ⟨[d], none, []⟩
  | .ok data =>
    let createReq := dnsPolicyCreateRequest data
    match client.createDNSPolicy createReq with
    | .error err =>
      ⟨[⟨"Client Error", "Unable to create DNS policy: " ++ err, none⟩], none,
        [.createDNSPolicy createReq]⟩
    | .ok result =>
      ⟨[], some { data with id := .value result.id }, [.createDNSPolicy createReq]⟩

/-- `DNSPolicyResource.Read` (lines 308-335): response fields replace the
state model's, `ttl_seconds` only when the response carries it. -/
def DNSPolicyResource.read (decoded : Except Diag DNSPolicyResourceModel)
    (client : DNSPolicyClient) : HandlerResult DNSPolicyResourceModel DNSPolicyCall :=
  match decoded with
  | .error d => ⟨[d], none, []⟩
  | .ok data =>
    let getReq := dnsPolicyGetRequest data
    match client.getDNSPolicy getReq with
    | .error err =>
      ⟨[⟨"Client Error", "Unable to read DNS policy: " ++ err, none⟩], none,
        [.getDNSPolicy getReq]⟩
    | .ok result =>
      let data := { data with
        type := .value result.type
        enabled := .value result.enabled
        domain := .value result.domain
        ipv4Address := .value result.ipv4Address
        ipv6Address := .value result.ipv6Address }
      let data := match result.ttlSeconds with
        | some ttl => { data with ttlSeconds := .value ttl }
        | none => data
      ⟨[], some data, [.getDNSPolicy getReq]⟩

/-- `DNSPolicyResource.Update` (lines 336-366): the response is discarded
(`_, err :=`); on success the plan model is written to state unchanged. -/
def DNSPolicyResource.update (decoded : Except Diag DNSPolicyResourceModel)
    (client : DNSPolicyClient) : HandlerResult DNSPolicyResourceModel DNSPolicyCall :=
  match decoded with
  | .error d => ⟨[d], none, []⟩
  | .ok data =>
    let updateReq := dnsPolicyUpdateRequest data
    match client.updateDNSPolicy updateReq with
    | .error err =>
      ⟨[⟨"Client Error", "Unable to update DNS policy: " ++ err, none⟩], none,
        [.updateDNSPolicy updateReq]⟩
    | .ok _ => ⟨[], some data, [.updateDNSPolicy updateReq]⟩

/-- `DNSPolicyResource.Delete` (lines 367-382): no `State.Set` on any path. -/
def DNSPolicyResource.delete (decoded : Except Diag DNSPolicyResourceModel)
    (client : DNSPolicyClient) : HandlerResult DNSPolicyResourceModel DNSPolicyCall :=
  match decoded with
  | .error d => ⟨[d], none, []⟩
  | .ok data =>
    let deleteReq := dnsPolicyDeleteRequest data
    match client.deleteDNSPolicy deleteReq with
    | .error err =>
      ⟨[⟨"Client Error", "Unable to delete DNS policy: " ++ err, none⟩], none,
        [.deleteDNSPolicy deleteReq]⟩
    | .ok _ => ⟨[], none, [.deleteDNSPolicy deleteReq]⟩

/-! ## Firewall zone resource — `internal/provider/firewall_zone_resource.go` -/

/-- `FirewallZoneResourceModel` (firewall_zone_resource.go:32-37):
`network_ids` is a `types.List` of strings, so a `TFValue` whose elements
are themselves `TFValue String`. -/
structure FirewallZoneResourceModel where
  siteID : TFValue String
  id : TFValue String
  name : TFValue String
  networkIDs : TFValue (List (TFValue String))
  deriving DecidableEq, Repr

/-- `networktypes.CreateFirewallZoneRequest` (firewall_zone_resource.go:99-103):
`NetworkIDs` is a Go `[]string`; `none` models the nil slice. -/
structure CreateFirewallZoneRequest where
  siteID : String
  name : String
  networkIDs : Option (List String)
  deriving DecidableEq, Repr

/-- `networktypes.GetFirewallZoneRequest` (firewall_zone_resource.go:122-125). -/
structure GetFirewallZoneRequest where
  siteID : String
  zoneID : String
  deriving DecidableEq, Repr

/-- `networktypes.UpdateFirewallZoneRequest` (firewall_zone_resource.go:154-159). -/
structure UpdateFirewallZoneRequest where
  siteID : String
  zoneID : String
  name : String
  networkIDs : Option (List String)
  deriving DecidableEq, Repr

/-- `networktypes.DeleteFirewallZoneRequest` (firewall_zone_resource.go:177-180). -/
structure DeleteFirewallZoneRequest where
  siteID : String
  zoneID : String
  deriving DecidableEq, Repr

/-- The SDK firewall zone object (fields the resource file reads). -/
structure FirewallZoneInfo where
  id : String
  name : String
  networkIDs : List String
  deriving DecidableEq, Repr

/-- The `network.Client` methods the firewall zone resource invokes. -/
structure FirewallZoneClient where
  createFirewallZone : CreateFirewallZoneRequest → Except GoError FirewallZoneInfo
  getFirewallZone : GetFirewallZoneRequest → Except GoError FirewallZoneInfo
  updateFirewallZone : UpdateFirewallZoneRequest → Except GoError FirewallZoneInfo
  deleteFirewallZone : DeleteFirewallZoneRequest → Except GoError Unit

/-- One performed call on the firewall zone resource's client. -/
inductive FirewallZoneCall where
  | createFirewallZone (req : CreateFirewallZoneRequest)
  | getFirewallZone (req : GetFirewallZoneRequest)
  | updateFirewallZone (req : UpdateFirewallZoneRequest)
  | deleteFirewallZone (req : DeleteFirewallZoneRequest)
  deriving DecidableEq, Repr

/-- `ElementsAs(ctx, &networkIDs, false)` on the elements of a known list:
each element must be a known string; a null or unknown element yields a
conversion error diagnostic. -/
def elementsAsStrings : List (TFValue String) → Except Diag (List String)
  | [] => .ok []
  | .value s :: rest => (elementsAsStrings rest).map (fun ss => s :: ss)
  | _ :: _ =>
    .error ⟨"Value Conversion Error", "received null or unknown list element", none⟩

/-- The `var networkIDs []string` + `ElementsAs` prologue shared by the
firewall zone Create and Update handlers (firewall_zone_resource.go:91-97 and
146-152): the nil slice when the attribute is null, otherwise the decoded
elements (an unknown list also fails conversion). -/
def firewallZoneNetworkIDs (data : FirewallZoneResourceModel) :
    Except Diag (Option (List String)) :=
  if data.networkIDs.isNull then .ok none
  else
    match data.networkIDs with
    | .value elems => (elementsAsStrings elems).map some
    | _ =>
      .error ⟨"Value Conversion Error", "received unknown list value", none⟩

/-- The `createReq` literal of `FirewallZoneResource.Create`
(firewall_zone_resource.go:99-103), given the decoded `networkIDs` local. -/
def firewallZoneCreateRequest (data : FirewallZoneResourceModel)
    (networkIDs : Option (List String)) : CreateFirewallZoneRequest :=
  { siteID := data.siteID.valueString
    name := data.name.valueString
    networkIDs := networkIDs }

/-- The request literal of `FirewallZoneResource.Read`
(firewall_zone_resource.go:122-125). -/
def firewallZoneGetRequest (data : FirewallZoneResourceModel) : GetFirewallZoneRequest :=
  { siteID := data.siteID.valueString, zoneID := data.id.valueString }

/-- The `updateReq` literal of `FirewallZoneResource.Update`
(firewall_zone_resource.go:154-159). -/
def firewallZoneUpdateRequest (data : FirewallZoneResourceModel)
    (networkIDs : Option (List String)) : UpdateFirewallZoneRequest :=
  { siteID := data.siteID.valueString
    zoneID := data.id.valueString
    name := data.name.valueString
    networkIDs := networkIDs }

/-- The request literal of `FirewallZoneResource.Delete`
(firewall_zone_resource.go:177-180). -/
def firewallZoneDeleteRequest (data : FirewallZoneResourceModel) : DeleteFirewallZoneRequest :=
  { siteID := data.siteID.valueString, zoneID := data.id.valueString }

/-- `FirewallZoneResource.Create` (firewall_zone_resource.go:82-113). -/
def FirewallZoneResource.create (decoded : Except Diag FirewallZoneResourceModel)
    (client : FirewallZoneClient) :
    HandlerResult FirewallZoneResourceModel FirewallZoneCall :=
  match decoded with
  | .error d => ⟨[d], none, []⟩
  | .ok data =>
    match firewallZoneNetworkIDs data with
    | .error d => ⟨[d], none, []⟩
    | .ok networkIDs =>
      let createReq := firewallZoneCreateRequest data networkIDs
      match client.createFirewallZone createReq with
      | .error err =>
        ⟨[⟨"Client Error", "Unable to create firewall zone: " ++ err, none⟩], none,
          [.createFirewallZone createReq]⟩
      | .ok result =>
        ⟨[], some { data with id := .value result.id }, [.createFirewallZone createReq]⟩

/-- `FirewallZoneResource.Read` (firewall_zone_resource.go:115-137): the
response's name and network id list replace the state model's
(`types.ListValueFrom` on a `[]string` always succeeds and yields a known
list of known strings). -/
def FirewallZoneResource.read (decoded : Except Diag FirewallZoneResourceModel)
    (client : FirewallZoneClient) :
    HandlerResult FirewallZoneResourceModel FirewallZoneCall :=
  match decoded with
  | .error d => ⟨[d], none, []⟩
  | .ok data =>
    let getReq := firewallZoneGetRequest data
    match client.getFirewallZone getReq with
    | .error err =>
      ⟨[⟨"Client Error", "Unable to read firewall zone: " ++ err, none⟩], none,
        [.getFirewallZone getReq]⟩
    | .ok result =>
      ⟨[], some { data with
          name := .value result.name
          networkIDs := .value (result.networkIDs.map .value) },
        [.getFirewallZone getReq]⟩

/-- `FirewallZoneResource.Update` (firewall_zone_resource.go:139-168): the
response is discarded (`_, err :=`); on success the plan model is written
to state unchanged. -/
def FirewallZoneResource.update (decoded : Except Diag FirewallZoneResourceModel)
    (client : FirewallZoneClient) :
    HandlerResult FirewallZoneResourceModel FirewallZoneCall :=
  match decoded with
  | .error d => ⟨[d], none, []⟩
  | .ok data =>
    match firewallZoneNetworkIDs data with
    | .error d => ⟨[d], none, []⟩
    | .ok networkIDs =>
      let updateReq := firewallZoneUpdateRequest data networkIDs
      match client.updateFirewallZone updateReq with
      | .error err =>
        ⟨[⟨"Client Error", "Unable to update firewall zone: " ++ err, none⟩], none,
          [.updateFirewallZone updateReq]⟩
      | .ok _ => ⟨[], some data, [.updateFirewallZone updateReq]⟩

/-- `FirewallZoneResource.Delete` (firewall_zone_resource.go:170-185):
no `State.Set` on any path. -/
def FirewallZoneResource.delete (decoded : Except Diag FirewallZoneResourceModel)
    (client : FirewallZoneClient) :
    HandlerResult FirewallZoneResourceModel FirewallZoneCall :=
  match decoded with
  | .error d => ⟨[d], none, []⟩
  | .ok data =>
    let deleteReq := firewallZoneDeleteRequest data
    match client.deleteFirewallZone deleteReq with
    | .error err =>
      ⟨[⟨"Client Error", "Unable to delete firewall zone: " ++ err, none⟩], none,
        [.deleteFirewallZone deleteReq]⟩
    | .ok _ => ⟨[], none, [.deleteFirewallZone deleteReq]⟩

/-! ## Firewall policy resource — `internal/provider/firewall_policy_resource.go` -/

/-- `FirewallPolicyResourceModel` (firewall_policy_resource.go:35-45). -/
structure FirewallPolicyResourceModel where
  siteID : TFValue String
  id : TFValue String
  name : TFValue String
  description : TFValue String
  enabled : TFValue Bool
  actionType : TFValue String
  sourceZoneID : TFValue String
  destinationZoneID : TFValue String
  loggingEnabled : TFValue Bool
  deriving DecidableEq, Repr

/-- `networktypes.FirewallPolicyAction` (the `Type` field the file sets/reads). -/
structure FirewallPolicyAction where
  type : String
  deriving DecidableEq, Repr

/-- `networktypes.FirewallPolicyEndpoint` (the `ZoneID` field the file sets/reads). -/
structure FirewallPolicyEndpoint where
  zoneID : String
  deriving DecidableEq, Repr

/-- `networktypes.FirewallIPProtocolScope` (the `IPVersion` field the file sets). -/
structure FirewallIPProtocolScope where
  ipVersion : String
  deriving DecidableEq, Repr

/-- `networktypes.CreateFirewallPolicyRequest` as filled by Create; the
nested pointers are always set by this file, so plain fields. -/
structure CreateFirewallPolicyRequest where
  siteID : String
  name : String
  description : String
  enabled : Bool
  loggingEnabled : Bool
  action : FirewallPolicyAction
  source : FirewallPolicyEndpoint
  destination : FirewallPolicyEndpoint
  ipProtocolScope : FirewallIPProtocolScope
  deriving DecidableEq, Repr

/-- `networktypes.GetFirewallPolicyRequest`. -/
structure GetFirewallPolicyRequest where
  siteID : String
  policyID : String
  deriving DecidableEq, Repr

/-- `networktypes.UpdateFirewallPolicyRequest` as filled by Update. -/
structure UpdateFirewallPolicyRequest where
  siteID : String
  policyID : String
  name : String
  description : String
  enabled : Bool
  loggingEnabled : Bool
  action : FirewallPolicyAction
  source : FirewallPolicyEndpoint
  destination : FirewallPolicyEndpoint
  ipProtocolScope : FirewallIPProtocolScope
  deriving DecidableEq, Repr

/-- `networktypes.DeleteFirewallPolicyRequest`. -/
structure DeleteFirewallPolicyRequest where
  siteID : String
  policyID : String
  deriving DecidableEq, Repr

/-- The SDK firewall policy object (fields the resource file reads; the
nested pointers may be nil, so `Option`). -/
structure FirewallPolicyInfo where
  id : String
  name : String
  description : String
  enabled : Bool
  loggingEnabled : Bool
  action : Option FirewallPolicyAction
  source : Option FirewallPolicyEndpoint
  destination : Option FirewallPolicyEndpoint
  deriving DecidableEq, Repr

/-- The `network.Client` methods the firewall policy resource invokes. -/
structure FirewallPolicyClient where
  createFirewallPolicy : CreateFirewallPolicyRequest → Except GoError FirewallPolicyInfo
  getFirewallPolicy : GetFirewallPolicyRequest → Except GoError FirewallPolicyInfo
  updateFirewallPolicy : UpdateFirewallPolicyRequest → Except GoError FirewallPolicyInfo
  deleteFirewallPolicy : DeleteFirewallPolicyRequest → Except GoError Unit

/-- One performed call on the firewall policy resource's client. -/
inductive FirewallPolicyCall where
  | createFirewallPolicy (req : CreateFirewallPolicyRequest)
  | getFirewallPolicy (req : GetFirewallPolicyRequest)
  | updateFirewallPolicy (req : UpdateFirewallPolicyRequest)
  | deleteFirewallPolicy (req : DeleteFirewallPolicyRequest)
  deriving DecidableEq, Repr

/-- The `createReq` literal of `FirewallPolicyResource.Create`
(firewall_policy_resource.go:123-141): the IP protocol scope is the fixed
`{IPVersion: "ipv4"}`. -/
def firewallPolicyCreateRequest (data : FirewallPolicyResourceModel) :
    CreateFirewallPolicyRequest :=
  { siteID := data.siteID.valueString
    name := data.name.valueString
    description := data.description.valueString
    enabled := data.enabled.valueBool
    loggingEnabled := data.loggingEnabled.valueBool
    action := { type := data.actionType.valueString }
    source := { zoneID := data.sourceZoneID.valueString }
    destination := { zoneID := data.destinationZoneID.valueString }
    ipProtocolScope := { ipVersion := "ipv4" } }

/-- The request literal of `FirewallPolicyResource.Read`
(firewall_policy_resource.go:160-163). -/
def firewallPolicyGetRequest (data : FirewallPolicyResourceModel) :
    GetFirewallPolicyRequest :=
  { siteID := data.siteID.valueString, policyID := data.id.valueString }

/-- The `updateReq` literal of `FirewallPolicyResource.Update`
(firewall_policy_resource.go:195-213). -/
def firewallPolicyUpdateRequest (data : FirewallPolicyResourceModel) :
    UpdateFirewallPolicyRequest :=
  { siteID := data.siteID.valueString
    policyID := data.id.valueString
    name := data.name.valueString
    description := data.description.valueString
    enabled := data.enabled.valueBool
    loggingEnabled := data.loggingEnabled.valueBool
    action := { type := data.actionType.valueString }
    source := { zoneID := data.sourceZoneID.valueString }
    destination := { zoneID := data.destinationZoneID.valueString }
    ipProtocolScope := { ipVersion := "ipv4" } }

/-- The request literal of `FirewallPolicyResource.Delete`
(firewall_policy_resource.go:230-233). -/
def firewallPolicyDeleteRequest (data : FirewallPolicyResourceModel) :
    DeleteFirewallPolicyRequest :=
  { siteID := data.siteID.valueString, policyID := data.id.valueString }

/-- `FirewallPolicyResource.Create` (firewall_policy_resource.go:114-151). -/
def FirewallPolicyResource.create (decoded : Except Diag FirewallPolicyResourceModel)
    (client : FirewallPolicyClient) :
    HandlerResult FirewallPolicyResourceModel FirewallPolicyCall :=
  match decoded with
  | .error d => ⟨[d], none, []⟩
  | .ok data =>
    let createReq := firewallPolicyCreateRequest data
    match client.createFirewallPolicy createReq with
    | .error err =>
      ⟨[⟨"Client Error", "Unable to create firewall policy: " ++ err, none⟩], none,
        [.createFirewallPolicy createReq]⟩
    | .ok result =>
      ⟨[], some { data with id := .value result.id }, [.createFirewallPolicy createReq]⟩

/-- `FirewallPolicyResource.Read` (firewall_policy_resource.go:153-185):
response fields replace the state model's; action type and the two zone ids
only when the response carries the nested object. -/
def FirewallPolicyResource.read (decoded : Except Diag FirewallPolicyResourceModel)
    (client : FirewallPolicyClient) :
    HandlerResult FirewallPolicyResourceModel FirewallPolicyCall :=
  match decoded with
  | .error d => ⟨[d], none, []⟩
  | .ok data =>
    let getReq := firewallPolicyGetRequest data
    match client.getFirewallPolicy getReq with
    | .error err =>
      ⟨[⟨"Client Error", "Unable to read firewall policy: " ++ err, none⟩], none,
        [.getFirewallPolicy getReq]⟩
    | .ok result =>
      let data := { data with
        name := .value result.name
        description := .value result.description
        enabled := .value result.enabled
        loggingEnabled := .value result.loggingEnabled }
      let data := match result.action with
        | some act => { data with actionType := .value act.type }
        | none => data
      let data := match result.source with
        | some src => { data with sourceZoneID := .value src.zoneID }
        | none => data
      let data := match result.destination with
        | some dst => { data with destinationZoneID := .value dst.zoneID }
        | none => data
      ⟨[], some data, [.getFirewallPolicy getReq]⟩

/-- `FirewallPolicyResource.Update` (firewall_policy_resource.go:187-222):
the response is discarded (`_, err :=`); on success the plan model is
written to state unchanged. -/
def FirewallPolicyResource.update (decoded : Except Diag FirewallPolicyResourceModel)
    (client : FirewallPolicyClient) :
    HandlerResult FirewallPolicyResourceModel FirewallPolicyCall :=
  match decoded with
  | .error d => ⟨[d], none, []⟩
  | .ok data =>
    let updateReq := firewallPolicyUpdateRequest data
    match client.updateFirewallPolicy updateReq with
    | .error err =>
      ⟨[⟨"Client Error", "Unable to update firewall policy: " ++ err, none⟩], none,
        [.updateFirewallPolicy updateReq]⟩
    | .ok _ => ⟨[], some data, [.updateFirewallPolicy updateReq]⟩

/-- `FirewallPolicyResource.Delete` (firewall_policy_resource.go:224-238):
no `State.Set` on any path. -/
def FirewallPolicyResource.delete (decoded : Except Diag FirewallPolicyResourceModel)
    (client : FirewallPolicyClient) :
    HandlerResult FirewallPolicyResourceModel FirewallPolicyCall :=
  match decoded with
  | .error d => ⟨[d], none, []⟩
  | .ok data =>
    let deleteReq := firewallPolicyDeleteRequest data
    match client.deleteFirewallPolicy deleteReq with
    | .error err =>
      ⟨[⟨"Client Error", "Unable to delete firewall policy: " ++ err, none⟩], none,
        [.deleteFirewallPolicy deleteReq]⟩
    | .ok _ => ⟨[], none, [.deleteFirewallPolicy deleteReq]⟩

/-! ## Traffic matching list resource —
`internal/provider/traffic_matching_list_resource.go` (lines 24-193) -/

/-- `TrafficMatchingListResourceModel`. -/
structure TrafficMatchingListResourceModel where
  siteID : TFValue String
  id : TFValue String
  name : TFValue String
  type : TFValue String
  deriving DecidableEq, Repr

/-- `networktypes.CreateTrafficMatchingListRequest` as filled by Create. -/
structure CreateTrafficMatchingListRequest where
  siteID : String
  name : String
  type : String
  deriving DecidableEq, Repr

/-- `networktypes.GetTrafficMatchingListRequest`. -/
structure GetTrafficMatchingListRequest where
  siteID : String
  listID : String
  deriving DecidableEq, Repr

/-- `networktypes.UpdateTrafficMatchingListRequest` as filled by Update. -/
structure UpdateTrafficMatchingListRequest where
  siteID : String
  listID : String
  name : String
  type : String
  deriving DecidableEq, Repr

/-- `networktypes.DeleteTrafficMatchingListRequest`. -/
structure DeleteTrafficMatchingListRequest where
  siteID : String
  listID : String
  deriving DecidableEq, Repr

/-- The SDK traffic matching list object (fields the resource file reads). -/
structure TrafficMatchingListInfo where
  id : String
  name : String
  type : String
  deriving DecidableEq, Repr

/-- The `network.Client` methods the traffic matching list resource invokes. -/
structure TrafficMatchingListClient where
  createTrafficMatchingList :
    CreateTrafficMatchingListRequest → Except GoError TrafficMatchingListInfo
  getTrafficMatchingList :
    GetTrafficMatchingListRequest → Except GoError TrafficMatchingListInfo
  updateTrafficMatchingList :
    UpdateTrafficMatchingListRequest → Except GoError TrafficMatchingListInfo
  deleteTrafficMatchingList :
    DeleteTrafficMatchingListRequest → Except GoError Unit

/-- One performed call on the traffic matching list resource's client. -/
inductive TrafficMatchingListCall where
  | createTrafficMatchingList (req : CreateTrafficMatchingListRequest)
  | getTrafficMatchingList (req : GetTrafficMatchingListRequest)
  | updateTrafficMatchingList (req : UpdateTrafficMatchingListRequest)
  | deleteTrafficMatchingList (req : DeleteTrafficMatchingListRequest)
  deriving DecidableEq, Repr

/-- The `createReq` literal of `TrafficMatchingListResource.Create` (lines 90-94). -/
def trafficMatchingListCreateRequest (data : TrafficMatchingListResourceModel) :
    CreateTrafficMatchingListRequest :=
  { siteID := data.siteID.valueString
    name := data.name.valueString
    type := data.type.valueString }

/-- The request literal of `TrafficMatchingListResource.Read` (lines 113-116). -/
def trafficMatchingListGetRequest (data : TrafficMatchingListResourceModel) :
    GetTrafficMatchingListRequest :=
  { siteID := data.siteID.valueString, listID := data.id.valueString }

/-- The `updateReq` literal of `TrafficMatchingListResource.Update` (lines 135-140). -/
def trafficMatchingListUpdateRequest (data : TrafficMatchingListResourceModel) :
    UpdateTrafficMatchingListRequest :=
  { siteID := data.siteID.valueString
    listID := data.id.valueString
    name := data.name.valueString
    type := data.type.valueString }

/-- The request literal of `TrafficMatchingListResource.Delete` (lines 158-161). -/
def trafficMatchingListDeleteRequest (data : TrafficMatchingListResourceModel) :
    DeleteTrafficMatchingListRequest :=
  { siteID := data.siteID.valueString, listID := data.id.valueString }

/-- `TrafficMatchingListResource.Create` (lines 81-104). -/
def TrafficMatchingListResource.create
    (decoded : Except Diag TrafficMatchingListResourceModel)
    (client : TrafficMatchingListClient) :
    HandlerResult TrafficMatchingListResourceModel TrafficMatchingListCall :=
  match decoded with
  | .error d => ⟨[d], none, []⟩
  | .ok data =>
    let createReq := trafficMatchingListCreateRequest data
    match client.createTrafficMatchingList createReq with
    | .error err =>
      ⟨[⟨"Client Error", "Unable to create traffic matching list: " ++ err, none⟩],
        none, [.createTrafficMatchingList createReq]⟩
    | .ok result =>
      ⟨[], some { data with id := .value result.id },
        [.createTrafficMatchingList createReq]⟩

/-- `TrafficMatchingListResource.Read` (lines 106-126). -/
def TrafficMatchingListResource.read
    (decoded : Except Diag TrafficMatchingListResourceModel)
    (client : TrafficMatchingListClient) :
    HandlerResult TrafficMatchingListResourceModel TrafficMatchingListCall :=
  match decoded with
  | .error d => ⟨[d], none, []⟩
  | .ok data =>
    let getReq := trafficMatchingListGetRequest data
    match client.getTrafficMatchingList getReq with
    | .error err =>
      ⟨[⟨"Client Error", "Unable to read traffic matching list: " ++ err, none⟩],
        none, [.getTrafficMatchingList getReq]⟩
    | .ok result =>
      ⟨[], some { data with
          name := .value result.name
          type := .value result.type }, [.getTrafficMatchingList getReq]⟩

/-- `TrafficMatchingListResource.Update` (lines 128-150): the response is
discarded (`_, err :=`); on success the plan model is written to state
unchanged. -/
def TrafficMatchingListResource.update
    (decoded : Except Diag TrafficMatchingListResourceModel)
    (client : TrafficMatchingListClient) :
    HandlerResult TrafficMatchingListResourceModel TrafficMatchingListCall :=
  match decoded with
  | .error d => ⟨[d], none, []⟩
  | .ok data =>
    let updateReq := trafficMatchingListUpdateRequest data
    match client.updateTrafficMatchingList updateReq with
    | .error err =>
      ⟨[⟨"Client Error", "Unable to update traffic matching list: " ++ err, none⟩],
        none, [.updateTrafficMatchingList updateReq]⟩
    | .ok _ => ⟨[], some data, [.updateTrafficMatchingList updateReq]⟩

/-- `TrafficMatchingListResource.Delete` (lines 151-167): no `State.Set`
on any path. -/
def TrafficMatchingListResource.delete
    (decoded : Except Diag TrafficMatchingListResourceModel)
    (client : TrafficMatchingListClient) :
    HandlerResult TrafficMatchingListResourceModel TrafficMatchingListCall :=
  match decoded with
  | .error d => ⟨[d], none, []⟩
  | .ok data =>
    let deleteReq := trafficMatchingListDeleteRequest data
    match client.deleteTrafficMatchingList deleteReq with
    | .error err =>
      ⟨[⟨"Client Error", "Unable to delete traffic matching list: " ++ err, none⟩],
        none, [.deleteTrafficMatchingList deleteReq]⟩
    | .ok _ => ⟨[], none, [.deleteTrafficMatchingList deleteReq]⟩

/-! ## Voucher resource — `internal/provider/voucher_resource.go` -/

/-- `VoucherResourceModel` (voucher_resource.go:31-38). -/
structure VoucherResourceModel where
  siteID : TFValue String
  id : TFValue String
  name : TFValue String
  code : TFValue String
  timeLimitMinutes : TFValue Int
  count : TFValue Int
  deriving DecidableEq, Repr

/-- `networktypes.GenerateVouchersRequest` as filled by Create
(voucher_resource.go:104-110): `Count` is a `*int` pointing at a local that
is always set, so `some` here mirrors the pointer. -/
structure GenerateVouchersRequest where
  siteID : String
  name : String
  timeLimitMinutes : Int
  count : Option Int
  deriving DecidableEq, Repr

/-- `networktypes.GetVoucherDetailsRequest` (voucher_resource.go:133-136). -/
structure GetVoucherDetailsRequest where
  siteID : String
  voucherID : String
  deriving DecidableEq, Repr

/-- `networktypes.DeleteVoucherRequest` (voucher_resource.go:160-163). -/
structure DeleteVoucherRequest where
  siteID : String
  voucherID : String
  deriving DecidableEq, Repr

/-- One generated voucher in the `GenerateVouchers` response (the fields
the resource file reads). -/
structure GeneratedVoucher where
  id : String
  code : String
  deriving DecidableEq, Repr

/-- The `GenerateVouchers` response: its `Vouchers` slice. -/
structure GenerateVouchersResponse where
  vouchers : List GeneratedVoucher
  deriving DecidableEq, Repr

/-- The SDK voucher object returned by `GetVoucherDetails` (fields the
resource file reads). -/
structure VoucherInfo where
  id : String
  name : String
  code : String
  timeLimitMinutes : Int
  deriving DecidableEq, Repr

/-- The `network.Client` methods `voucher_resource.go` invokes: there is no
voucher-update SDK method in this file; `DeleteVoucher`'s response body is
discarded (`_, err :=`). -/
structure VoucherClient where
  generateVouchers : GenerateVouchersRequest → Except GoError GenerateVouchersResponse
  getVoucherDetails : GetVoucherDetailsRequest → Except GoError VoucherInfo
  deleteVoucher : DeleteVoucherRequest → Except GoError Unit

/-- One performed call on the voucher resource's client. -/
inductive VoucherCall where
  | generateVouchers (req : GenerateVouchersRequest)
  | getVoucherDetails (req : GetVoucherDetailsRequest)
  | deleteVoucher (req : DeleteVoucherRequest)
  deriving DecidableEq, Repr

/-- The `createReq` literal of `VoucherResource.Create`
(voucher_resource.go:104-110). -/
def voucherCreateRequest (data : VoucherResourceModel) : GenerateVouchersRequest :=
  { siteID := data.siteID.valueString
    name := data.name.valueString
    timeLimitMinutes := data.timeLimitMinutes.valueInt64
    count := some data.count.valueInt64 }

/-- The request literal of `VoucherResource.Read` (voucher_resource.go:133-136). -/
def voucherGetRequest (data : VoucherResourceModel) : GetVoucherDetailsRequest :=
  { siteID := data.siteID.valueString, voucherID := data.id.valueString }

/-- The request literal of `VoucherResource.Delete` (voucher_resource.go:160-163). -/
def voucherDeleteRequest (data : VoucherResourceModel) : DeleteVoucherRequest :=
  { siteID := data.siteID.valueString, voucherID := data.id.valueString }

/-- `VoucherResource.Create` (voucher_resource.go:95-124): on success the
first generated voucher's id and code go into state when the response's
voucher list is non-empty; state is written in either case. -/
def VoucherResource.create (decoded : Except Diag VoucherResourceModel)
    (client : VoucherClient) : HandlerResult VoucherResourceModel VoucherCall :=
  match decoded with
  | .error d => ⟨[d], none, []⟩
  | .ok data =>
    let createReq := voucherCreateRequest data
    match client.generateVouchers createReq with
    | .error err =>
      ⟨[⟨"Client Error", "Unable to create voucher: " ++ err, none⟩], none,
        [.generateVouchers createReq]⟩
    | .ok result =>
      let data := match result.vouchers with
        | v :: _ => { data with id := .value v.id, code := .value v.code }
        | [] => data
      ⟨[], some data, [.generateVouchers createReq]⟩

/-- `VoucherResource.Read` (voucher_resource.go:126-147). -/
def VoucherResource.read (decoded : Except Diag VoucherResourceModel)
    (client : VoucherClient) : HandlerResult VoucherResourceModel VoucherCall :=
  match decoded with
  | .error d => ⟨[d], none, []⟩
  | .ok data =>
    let getReq := voucherGetRequest data
    match client.getVoucherDetails getReq with
    | .error err =>
      ⟨[⟨"Client Error", "Unable to read voucher: " ++ err, none⟩], none,
        [.getVoucherDetails getReq]⟩
    | .ok result =>
      ⟨[], some { data with
          name := .value result.name
          code := .value result.code
          timeLimitMinutes := .value result.timeLimitMinutes },
        [.getVoucherDetails getReq]⟩

/-- `VoucherResource.Update` (voucher_resource.go:149-151): the body is a
single `AddError("Update Not Supported", ...)`; it reads neither plan nor
state, performs no SDK call and never writes state. -/
def VoucherResource.update (_decoded : Except Diag VoucherResourceModel)
    (_client : VoucherClient) : HandlerResult VoucherResourceModel VoucherCall :=
  ⟨[⟨"Update Not Supported",
      "Vouchers cannot be updated. Delete and recreate instead.", none⟩],
    none, []⟩

/-- `VoucherResource.Delete` (voucher_resource.go:153-168): no `State.Set`
on any path. -/
def VoucherResource.delete (decoded : Except Diag VoucherResourceModel)
    (client : VoucherClient) : HandlerResult VoucherResourceModel VoucherCall :=
  match decoded with
  | .error d => ⟨[d], none, []⟩
  | .ok data =>
    let deleteReq := voucherDeleteRequest data
    match client.deleteVoucher deleteReq with
    | .error err =>
      ⟨[⟨"Client Error", "Unable to delete voucher: " ++ err, none⟩], none,
        [.deleteVoucher deleteReq]⟩
    | .ok _ => ⟨[], none, [.deleteVoucher deleteReq]⟩

/-! ## Provider — `internal/provider/provider.go` -/

/-- `UnifiNetworkProviderModel` (provider.go:27-30). -/
structure UnifiNetworkProviderModel where
  apiKey : TFValue String
  baseURL : TFValue String
  deriving DecidableEq, Repr

/-- A constructed SDK client: `network.NewClient(apiKey, opts...)` /
`sitemanager.NewClient(apiKey, opts...)` with the `WithBaseURL` option when
one was appended (provider.go:88-96). -/
structure SDKClient where
  apiKey : String
  baseURL : Option String
  deriving DecidableEq, Repr

/-- `UnifiClients` (provider.go:32-35). -/
structure UnifiClients where
  network : SDKClient
  siteManager : SDKClient
  deriving DecidableEq, Repr

/-- The process environment read by Configure: `os.Getenv` returns `""`
for an unset variable. -/
structure ProviderEnv where
  unifiApiKey : String
  unifiBaseURL : String
  deriving DecidableEq, Repr

/-- What Configure produced: diagnostics, `resp.ResourceData` and
`resp.DataSourceData` (`none` = never assigned). -/
structure ConfigureResult where
  diags : List Diag
  resourceData : Option UnifiClients
  dataSourceData : Option UnifiClients
  deriving DecidableEq, Repr

/-- The `apiKey` local of Configure (provider.go:68-71): the environment
variable, overridden by the config attribute when that is non-null. -/
def resolvedApiKey (config : UnifiNetworkProviderModel) (env : ProviderEnv) : String :=
  if !config.apiKey.isNull then config.apiKey.valueString else env.unifiApiKey

/-- The `baseURL` local of Configure (provider.go:83-86). -/
def resolvedBaseURL (config : UnifiNetworkProviderModel) (env : ProviderEnv) : String :=
  if !config.baseURL.isNull then config.baseURL.valueString else env.unifiBaseURL

/-- The attribute error Configure adds when the resolved API key is empty
(provider.go:74-79). -/
def missingApiKeyDiag : Diag :=
  { summary := "Missing UniFi API Key"
    detail := "The provider cannot create the UniFi API client as there is a missing or empty value for the UniFi API key. Set the api_key value in the configuration or use the UNIFI_API_KEY environment variable."
    attrPath := some "api_key" }

/-- `UnifiNetworkProvider.Configure` (provider.go:59-102). -/
def UnifiNetworkProvider.configure (decoded : Except Diag UnifiNetworkProviderModel)
    (env : ProviderEnv) : ConfigureResult :=
  match decoded with
  | .error d => ⟨[d], none, none⟩
  | .ok config =>
    let apiKey := resolvedApiKey config env
    if apiKey = "" then ⟨[missingApiKeyDiag], none, none⟩
    else
      let baseURL := resolvedBaseURL config env
      let opts : Option String := if baseURL ≠ "" then some baseURL else none
      let clients : UnifiClients :=
        { network := { apiKey := apiKey, baseURL := opts }
          siteManager := { apiKey := apiKey, baseURL := opts } }
      ⟨[], some clients, some clients⟩

/-- The eight managed resource kinds, named after their constructors in
`UnifiNetworkProvider.Resources` (provider.go:104-115). -/
inductive ResourceKind where
  | network
  | wifiBroadcast
  | aclRule
  | dnsPolicy
  | firewallZone
  | firewallPolicy
  | trafficMatchingList
  | voucher
  deriving DecidableEq, Repr

/-- The seventeen data source kinds, named after their constructors in
`UnifiNetworkProvider.DataSources` (provider.go:117-137). -/
inductive DataSourceKind where
  | sites
  | network
  | networks
  | devices
  | device
  | clients
  | aclRules
  | dnsPolicies
  | firewallZones
  | firewallPolicies
  | trafficMatchingLists
  | vouchers
  | wanInterfaces
  | vpnTunnels
  | vpnServers
  | radiusProfiles
  | wifiBroadcasts
  deriving DecidableEq, Repr

/-- `UnifiNetworkProvider.Resources` (provider.go:104-115), in source order. -/
def UnifiNetworkProvider.resources : List ResourceKind :=
  [.network, .wifiBroadcast, .aclRule, .dnsPolicy, .firewallZone,
   .firewallPolicy, .trafficMatchingList, .voucher]

/-- `UnifiNetworkProvider.DataSources` (provider.go:117-137), in source order. -/
def UnifiNetworkProvider.dataSources : List DataSourceKind :=
  [.sites, .network, .networks, .devices, .device, .clients, .aclRules,
   .dnsPolicies, .firewallZones, .firewallPolicies, .trafficMatchingLists,
   .vouchers, .wanInterfaces, .vpnTunnels, .vpnServers, .radiusProfiles,
   .wifiBroadcasts]

/-- The number of resource and data-source types the provider registers. -/
def registeredTypeCount : Nat :=
  UnifiNetworkProvider.resources.length + UnifiNetworkProvider.dataSources.length

/-- The template methods of a resource implementation. -/
inductive TemplateMethod where
  | metadata
  | schema
  | configure
  | create
  | read
  | update
  | delete
  | importState
  deriving DecidableEq, Repr

/-- The methods each registered resource type defines in its source file
(every resource defines all of Metadata/Schema/Configure/Create/Read/
Update/Delete; all but the voucher resource also define ImportState — the
voucher file declares only `var _ resource.Resource`). -/
def templateMethods : ResourceKind → List TemplateMethod
  | .voucher =>
    [.metadata, .schema, .configure, .create, .read, .update, .delete]
  | _ =>
    [.metadata, .schema, .configure, .create, .read, .update, .delete, .importState]

/-! ## Resource schemas

Each registered resource's `Schema` method, transcribed as data: for every
attribute its name, the `Required`/`Optional`/`Computed` flags, and its
static `Default` when it declares one. -/

/-- A static default value: `booldefault.StaticBool`, `int64default.StaticInt64`
or `stringdefault.StaticString`. -/
inductive StaticDefault where
  | b (v : Bool)
  | i (v : Int)
  | s (v : String)
  deriving DecidableEq, Repr

/-- One schema attribute as declared: name, flags, optional static default. -/
structure AttrSpec where
  name : String
  required : Bool := false
  optional : Bool := false
  computed : Bool := false
  default : Option StaticDefault := none
  deriving DecidableEq, Repr

/-- `NetworkResource.Schema` (network_resource.go:51-111). -/
def networkResourceSchema : List AttrSpec :=
  [{ name := "site_id", required := true },
   { name := "id", computed := true },
   { name := "name", required := true },
   { name := "enabled", optional := true, computed := true, default := some (.b true) },
   { name := "vlan_id", optional := true, computed := true, default := some (.i 1) },
   { name := "management", optional := true, computed := true,
     default := some (.s "third-party") },
   { name := "isolation_enabled", optional := true, computed := true,
     default := some (.b false) },
   { name := "internet_access_enabled", optional := true, computed := true,
     default := some (.b true) },
   { name := "mdns_forwarding_enabled", optional := true, computed := true,
     default := some (.b false) }]

/-- `WifiBroadcastResource.Schema`. -/
def wifiBroadcastResourceSchema : List AttrSpec :=
  [{ name := "site_id", required := true },
   { name := "id", computed := true },
   { name := "name", required := true },
   { name := "type", optional := true, computed := true, default := some (.s "standard") },
   { name := "enabled", optional := true, computed := true, default := some (.b true) },
   { name := "network_id", optional := true },
   { name := "security_type", optional := true, computed := true,
     default := some (.s "wpa2") },
   { name := "passphrase", optional := true },
   { name := "hide_name", optional := true, computed := true, default := some (.b false) },
   { name := "client_isolation_enabled", optional := true, computed := true,
     default := some (.b false) }]

/-- `ACLRuleResource.Schema` (acl_rule_resource.go:48-91). -/
def aclRuleResourceSchema : List AttrSpec :=
  [{ name := "site_id", required := true },
   { name := "id", computed := true },
   { name := "type", optional := true, computed := true, default := some (.s "wired") },
   { name := "name", required := true },
   { name := "description", optional := true },
   { name := "enabled", optional := true, computed := true, default := some (.b true) },
   { name := "action", optional := true, computed := true, default := some (.s "allow") }]

/-- `DNSPolicyResource.Schema` (traffic_matching_list_resource.go:219-262). -/
def dnsPolicyResourceSchema : List AttrSpec :=
  [{ name := "site_id", required := true },
   { name := "id", computed := true },
   { name := "type", required := true },
   { name := "enabled", optional := true, computed := true, default := some (.b true) },
   { name := "domain", optional := true },
   { name := "ipv4_address", optional := true },
   { name := "ipv6_address", optional := true },
   { name := "ttl_seconds", optional := true }]

/-- `FirewallZoneResource.Schema` (firewall_zone_resource.go:43-68). -/
def firewallZoneResourceSchema : List AttrSpec :=
  [{ name := "site_id", required := true },
   { name := "id", computed := true },
   { name := "name", required := true },
   { name := "network_ids", optional := true }]

/-- `FirewallPolicyResource.Schema` (firewall_policy_resource.go:50-101). -/
def firewallPolicyResourceSchema : List AttrSpec :=
  [{ name := "site_id", required := true },
   { name := "id", computed := true },
   { name := "name", required := true },
   { name := "description", optional := true },
   { name := "enabled", optional := true, computed := true, default := some (.b true) },
   { name := "action_type", optional := true, computed := true,
     default := some (.s "allow") },
   { name := "source_zone_id", required := true },
   { name := "destination_zone_id", required := true },
   { name := "logging_enabled", optional := true, computed := true,
     default := some (.b false) }]

/-- `TrafficMatchingListResource.Schema`
(traffic_matching_list_resource.go:43-68). -/
def trafficMatchingListResourceSchema : List AttrSpec :=
  [{ name := "site_id", required := true },
   { name := "id", computed := true },
   { name := "name", required := true },
   { name := "type", required := true }]

/-- `VoucherResource.Schema` (voucher_resource.go:44-81). -/
def voucherResourceSchema : List AttrSpec :=
  [{ name := "site_id", required := true },
   { name := "id", computed := true },
   { name := "name", required := true },
   { name := "code", computed := true },
   { name := "time_limit_minutes", optional := true, computed := true,
     default := some (.i 60) },
   { name := "count", optional := true, computed := true, default := some (.i 1) }]

/-- The schema of each registered resource kind. -/
def resourceSchema : ResourceKind → List AttrSpec
  | .network => networkResourceSchema
  | .wifiBroadcast => wifiBroadcastResourceSchema
  | .aclRule => aclRuleResourceSchema
  | .dnsPolicy => dnsPolicyResourceSchema
  | .firewallZone => firewallZoneResourceSchema
  | .firewallPolicy => firewallPolicyResourceSchema
  | .trafficMatchingList => trafficMatchingListResourceSchema
  | .voucher => voucherResourceSchema

/-- Look up an attribute of a schema by name. -/
def findAttr (schema : List AttrSpec) (n : String) : Option AttrSpec :=
  schema.find? (fun a => a.name = n)

/-! ## Concrete sample inputs (for counterexamples and evaluation checks) -/

/-- A fully known network plan model whose name is `"a"`. -/
def networkPlanA : NetworkResourceModel :=
  { siteID := .value "site-1", id := .value "net-1", name := .value "a"
    enabled := .value true, vlanID := .value 1, management := .value "third-party"
    isolationEnabled := .value false, internetAccessEnabled := .value true
    mdnsForwardingEnabled := .value false }

/-- A network object as the SDK could return it on update: its name is
`"b"`, different from the plan's. -/
def networkResponseB : NetworkInfo :=
  { id := "net-1", name := "b", enabled := false, vlanID := 7
    management := "managed", isolationEnabled := some true
    internetAccessEnabled := some false, mdnsForwardingEnabled := some true }

/-- A network client whose `UpdateNetwork` succeeds with `networkResponseB`
and whose `DeleteNetwork` succeeds. -/
def networkClientB : NetworkClient :=
  { createNetwork := fun _ => .error "unused"
    getNetworkDetails := fun _ => .error "unused"
    updateNetwork := fun _ => .ok networkResponseB
    deleteNetwork := fun _ => .ok () }

/-- A fully known voucher plan model. -/
def voucherPlanA : VoucherResourceModel :=
  { siteID := .value "site-1", id := .value "v-1", name := .value "guest"
    code := .value "12345", timeLimitMinutes := .value 60, count := .value 1 }

/-- A voucher client all of whose methods succeed. -/
def voucherClientA : VoucherClient :=
  { generateVouchers := fun _ => .ok ⟨[⟨"v-1", "12345"⟩]⟩
    getVoucherDetails := fun _ => .ok ⟨"v-1", "guest", "12345", 60⟩
    deleteVoucher := fun _ => .ok () }

/-- Reading of the spec's "approximately 20": twenty up to ten percent,
that is between 18 and 22 inclusive. -/
def approximatelyTwenty (n : Nat) : Prop := 18 ≤ n ∧ n ≤ 22

instance : DecidablePred approximatelyTwenty := fun n =>
  inferInstanceAs (Decidable (18 ≤ n ∧ n ≤ 22))

/-- An attribute is flagged when it is marked Required, Optional or Computed. -/
def attrFlagged (a : AttrSpec) : Bool := a.required || a.optional || a.computed

/-- An attribute with a static default is marked both Optional and Computed. -/
def defaultOptionalComputed (a : AttrSpec) : Bool :=
  !a.default.isSome || (a.optional && a.computed)

/-! ## Theorems -/

/-- `ElementsAs` on a list whose elements are all known strings succeeds
with exactly those strings. -/
theorem elementsAsStrings_map_value (ss : List String) :
    elementsAsStrings (ss.map TFValue.value) = .ok ss := by
  induction ss with
  | nil => rfl
  | cons s rest ih => simp [elementsAsStrings, ih, Except.map]

/-- C4: `UnifiNetworkProvider.Resources` returns constructors for exactly
the eight managed resource kinds the spec enumerates — networks, WiFi
SSIDs, ACL rules, DNS policies, firewall zones, firewall policies, traffic
matching lists and vouchers — with no duplicates, no omissions and nothing
else. -/
theorem provider_resources_exactly_eight :
    UnifiNetworkProvider.resources =
      [.network, .wifiBroadcast, .aclRule, .dnsPolicy, .firewallZone,
       .firewallPolicy, .trafficMatchingList, .voucher] ∧
    UnifiNetworkProvider.resources.length = 8 ∧
    UnifiNetworkProvider.resources.Nodup ∧
    (∀ k : ResourceKind, k ∈ UnifiNetworkProvider.resources) := by
  refine ⟨rfl, rfl, by decide, ?_⟩
  intro k
  cases k <;> simp [UnifiNetworkProvider.resources]

/-- C6: in every registered resource schema each attribute carries at
least one of the Required/Optional/Computed flags, every attribute with a
static default is both Optional and Computed, and the defaults the spec
cites are as declared: voucher `time_limit_minutes` defaults to 60,
voucher `count` to 1, network `enabled` to `true`, network `vlan_id` to 1. -/
theorem schema_attribute_flags_and_defaults :
    (UnifiNetworkProvider.resources.all (fun k =>
      (resourceSchema k).all (fun a => attrFlagged a && defaultOptionalComputed a))
      = true) ∧
    (findAttr voucherResourceSchema "time_limit_minutes").map AttrSpec.default
      = some (some (.i 60)) ∧
    (findAttr voucherResourceSchema "count").map AttrSpec.default
      = some (some (.i 1)) ∧
    (findAttr networkResourceSchema "enabled").map AttrSpec.default
      = some (some (.b true)) ∧
    (findAttr networkResourceSchema "vlan_id").map AttrSpec.default
      = some (some (.i 1)) := by
  refine ⟨by decide, rfl, rfl, rfl, rfl⟩

/-- C7 counterexample: the provider registers 25 resource/data-source
types in total (8 resources, 17 data sources), which is not approximately
20 (reading "approximately 20" as 20 up to ten percent, 18..22). -/
theorem registered_type_count_cex :
    registeredTypeCount = 25 ∧ ¬ approximatelyTwenty registeredTypeCount := by
  decide

/-- C7 (amended): the provider registers 25 resource/data-source types in
total — 8 resources and 17 data sources — and every registered resource
type implements each of the template methods Metadata, Schema, Configure,
Create, Read, Update and Delete. -/
theorem registered_types_and_template_methods :
    registeredTypeCount = 25 ∧
    UnifiNetworkProvider.resources.length = 8 ∧
    UnifiNetworkProvider.dataSources.length = 17 ∧
    (∀ k : ResourceKind,
      ([.metadata, .schema, .configure, .create, .read, .update, .delete] :
        List TemplateMethod) ⊆ templateMethods k) := by
  refine ⟨rfl, rfl, rfl, ?_⟩
  intro k
  cases k <;> decide

/-- C8: provider Configure resolves the API key from the `api_key` config
attribute when non-null and from the `UNIFI_API_KEY` environment variable
otherwise; when the resolved key is empty it adds exactly one attribute
error on `api_key` and returns with `ResourceData` and `DataSourceData`
unset (no SDK clients created). -/
theorem configure_api_key_resolution :
    (∀ config env, config.apiKey.isNull = false →
      resolvedApiKey config env = config.apiKey.valueString) ∧
    (∀ config env, config.apiKey.isNull = true →
      resolvedApiKey config env = env.unifiApiKey) ∧
    (∀ config env, resolvedApiKey config env = "" →
      UnifiNetworkProvider.configure (.ok config) env =
        ⟨[missingApiKeyDiag], none, none⟩) ∧
    missingApiKeyDiag.attrPath = some "api_key" := by
  refine ⟨?_, ?_, ?_, rfl⟩
  · intro config env h
    simp [resolvedApiKey, h]
  · intro config env h
    simp [resolvedApiKey, h]
  · intro config env h
    simp [UnifiNetworkProvider.configure, h]

/-- C9: for every decode outcome and every client, `VoucherResource.Update`
adds exactly the "Update Not Supported" error diagnostic, performs no SDK
call and never writes Terraform state. -/
theorem voucher_update_not_supported (decoded : Except Diag VoucherResourceModel)
    (client : VoucherClient) :
    VoucherResource.update decoded client =
      ⟨[⟨"Update Not Supported",
          "Vouchers cannot be updated. Delete and recreate instead.", none⟩],
        none, []⟩ := rfl

/-- C1 counterexample: `VoucherResource.Update` with a successfully decoded
plan performs zero SDK client calls, not exactly one. -/
theorem voucher_update_zero_calls_cex :
    (VoucherResource.update (.ok voucherPlanA) voucherClientA).calls.length ≠ 1 := by
  decide

/-- C1 (amended): whenever decoding the typed model succeeds — and, for
the firewall zone Create/Update handlers, the `network_ids` list
conversion also succeeds — every Create/Read/Update/Delete handler of
every registered resource invokes exactly one SDK client method, except
`VoucherResource.Update`, which invokes none; the firewall zone handlers
never invoke more than one call on any input. -/
theorem handlers_invoke_exactly_one_call :
    (∀ m cl, (NetworkResource.create (.ok m) cl).calls.length = 1) ∧
    (∀ m cl, (NetworkResource.read (.ok m) cl).calls.length = 1) ∧
    (∀ m cl, (NetworkResource.update (.ok m) cl).calls.length = 1) ∧
    (∀ m cl, (NetworkResource.delete (.ok m) cl).calls.length = 1) ∧
    (∀ m cl, (WifiBroadcastResource.create (.ok m) cl).calls.length = 1) ∧
    (∀ m cl, (WifiBroadcastResource.read (.ok m) cl).calls.length = 1) ∧
    (∀ m cl, (WifiBroadcastResource.update (.ok m) cl).calls.length = 1) ∧
    (∀ m cl, (WifiBroadcastResource.delete (.ok m) cl).calls.length = 1) ∧
    (∀ m cl, (ACLRuleResource.create (.ok m) cl).calls.length = 1) ∧
    (∀ m cl, (ACLRuleResource.read (.ok m) cl).calls.length = 1) ∧
    (∀ m cl, (ACLRuleResource.update (.ok m) cl).calls.length = 1) ∧
    (∀ m cl, (ACLRuleResource.delete (.ok m) cl).calls.length = 1) ∧
    (∀ m cl, (DNSPolicyResource.create (.ok m) cl).calls.length = 1) ∧
    (∀ m cl, (DNSPolicyResource.read (.ok m) cl).calls.length = 1) ∧
    (∀ m cl, (DNSPolicyResource.update (.ok m) cl).calls.length = 1) ∧
    (∀ m cl, (DNSPolicyResource.delete (.ok m) cl).calls.length = 1) ∧
    (∀ m cl ids, firewallZoneNetworkIDs m = .ok ids →
      (FirewallZoneResource.create (.ok m) cl).calls.length = 1) ∧
    (∀ m cl, (FirewallZoneResource.read (.ok m) cl).calls.length = 1) ∧
    (∀ m cl ids, firewallZoneNetworkIDs m = .ok ids →
      (FirewallZoneResource.update (.ok m) cl).calls.length = 1) ∧
    (∀ m cl, (FirewallZoneResource.delete (.ok m) cl).calls.length = 1) ∧
    (∀ m cl, (FirewallZoneResource.create (.ok m) cl).calls.length ≤ 1) ∧
    (∀ m cl, (FirewallZoneResource.update (.ok m) cl).calls.length ≤ 1) ∧
    (∀ m cl, (FirewallPolicyResource.create (.ok m) cl).calls.length = 1) ∧
    (∀ m cl, (FirewallPolicyResource.read (.ok m) cl).calls.length = 1) ∧
    (∀ m cl, (FirewallPolicyResource.update (.ok m) cl).calls.length = 1) ∧
    (∀ m cl, (FirewallPolicyResource.delete (.ok m) cl).calls.length = 1) ∧
    (∀ m cl, (TrafficMatchingListResource.create (.ok m) cl).calls.length = 1) ∧
    (∀ m cl, (TrafficMatchingListResource.read (.ok m) cl).calls.length = 1) ∧
    (∀ m cl, (TrafficMatchingListResource.update (.ok m) cl).calls.length = 1) ∧
    (∀ m cl, (TrafficMatchingListResource.delete (.ok m) cl).calls.length = 1) ∧
    (∀ m cl, (VoucherResource.create (.ok m) cl).calls.length = 1) ∧
    (∀ m cl, (VoucherResource.read (.ok m) cl).calls.length = 1) ∧
    (∀ dec cl, (VoucherResource.update dec cl).calls = []) ∧
    (∀ m cl, (VoucherResource.delete (.ok m) cl).calls.length = 1) := by
  refine ⟨?_, ?_, ?_, ?_, ?_, ?_, ?_, ?_, ?_, ?_, ?_, ?_, ?_, ?_, ?_, ?_, ?_,
    ?_, ?_, ?_, ?_, ?_, ?_, ?_, ?_, ?_, ?_, ?_, ?_, ?_, ?_, ?_, ?_, ?_⟩
  · intro m cl
    cases hc : cl.createNetwork (networkCreateRequest m) <;>
      simp [NetworkResource.create, hc]
  · intro m cl
    cases hc : cl.getNetworkDetails (networkGetRequest m) <;>
      simp [NetworkResource.read, hc]
  · intro m cl
    cases hc : cl.updateNetwork (networkUpdateRequest m) <;>
      simp [NetworkResource.update, hc]
  · intro m cl
    cases hc : cl.deleteNetwork (networkDeleteRequest m) <;>
      simp [NetworkResource.delete, hc]
  · intro m cl
    cases hc : cl.createWifiBroadcast (wifiBroadcastCreateRequest m) <;>
      simp [WifiBroadcastResource.create, hc]
  · intro m cl
    cases hc : cl.getWifiBroadcastDetails (wifiBroadcastGetRequest m) <;>
      simp [WifiBroadcastResource.read, hc]
  · intro m cl
    cases hc : cl.updateWifiBroadcast (wifiBroadcastUpdateRequest m) <;>
      simp [WifiBroadcastResource.update, hc]
  · intro m cl
    cases hc : cl.deleteWifiBroadcast (wifiBroadcastDeleteRequest m) <;>
      simp [WifiBroadcastResource.delete, hc]
  · intro m cl
    cases hc : cl.createACLRule (aclRuleCreateRequest m) <;>
      simp [ACLRuleResource.create, hc]
  · intro m cl
    cases hc : cl.getACLRule (aclRuleGetRequest m) <;>
      simp [ACLRuleResource.read, hc]
  · intro m cl
    cases hc : cl.updateACLRule (aclRuleUpdateRequest m) <;>
      simp [ACLRuleResource.update, hc]
  · intro m cl
    cases hc : cl.deleteACLRule (aclRuleDeleteRequest m) <;>
      simp [ACLRuleResource.delete, hc]
  · intro m cl
    cases hc : cl.createDNSPolicy (dnsPolicyCreateRequest m) <;>
      simp [DNSPolicyResource.create, hc]
  · intro m cl
    cases hc : cl.getDNSPolicy (dnsPolicyGetRequest m) <;>
      simp [DNSPolicyResource.read, hc]
  · intro m cl
    cases hc : cl.updateDNSPolicy (dnsPolicyUpdateRequest m) <;>
      simp [DNSPolicyResource.update, hc]
  · intro m cl
    cases hc : cl.deleteDNSPolicy (dnsPolicyDeleteRequest m) <;>
      simp [DNSPolicyResource.delete, hc]
  · intro m cl ids h
    cases hc : cl.createFirewallZone (firewallZoneCreateRequest m ids) <;>
      simp [FirewallZoneResource.create, h, hc]
  · intro m cl
    cases hc : cl.getFirewallZone (firewallZoneGetRequest m) <;>
      simp [FirewallZoneResource.read, hc]
  · intro m cl ids h
    cases hc : cl.updateFirewallZone (firewallZoneUpdateRequest m ids) <;>
      simp [FirewallZoneResource.update, h, hc]
  · intro m cl
    cases hc : cl.deleteFirewallZone (firewallZoneDeleteRequest m) <;>
      simp [FirewallZoneResource.delete, hc]
  · intro m cl
    cases h : firewallZoneNetworkIDs m with
    | error d => simp [FirewallZoneResource.create, h]
    | ok ids =>
      cases hc : cl.createFirewallZone (firewallZoneCreateRequest m ids) <;>
        simp [FirewallZoneResource.create, h, hc]
  · intro m cl
    cases h : firewallZoneNetworkIDs m with
    | error d => simp [FirewallZoneResource.update, h]
    | ok ids =>
      cases hc : cl.updateFirewallZone (firewallZoneUpdateRequest m ids) <;>
        simp [FirewallZoneResource.update, h, hc]
  · intro m cl
    cases hc : cl.createFirewallPolicy (firewallPolicyCreateRequest m) <;>
      simp [FirewallPolicyResource.create, hc]
  · intro m cl
    cases hc : cl.getFirewallPolicy (firewallPolicyGetRequest m) <;>
      simp [FirewallPolicyResource.read, hc]
  · intro m cl
    cases hc : cl.updateFirewallPolicy (firewallPolicyUpdateRequest m) <;>
      simp [FirewallPolicyResource.update, hc]
  · intro m cl
    cases hc : cl.deleteFirewallPolicy (firewallPolicyDeleteRequest m) <;>
      simp [FirewallPolicyResource.delete, hc]
  · intro m cl
    cases hc : cl.createTrafficMatchingList (trafficMatchingListCreateRequest m) <;>
      simp [TrafficMatchingListResource.create, hc]
  · intro m cl
    cases hc : cl.getTrafficMatchingList (trafficMatchingListGetRequest m) <;>
      simp [TrafficMatchingListResource.read, hc]
  · intro m cl
    cases hc : cl.updateTrafficMatchingList (trafficMatchingListUpdateRequest m) <;>
      simp [TrafficMatchingListResource.update, hc]
  · intro m cl
    cases hc : cl.deleteTrafficMatchingList (trafficMatchingListDeleteRequest m) <;>
      simp [TrafficMatchingListResource.delete, hc]
  · intro m cl
    cases hc : cl.generateVouchers (voucherCreateRequest m) <;>
      simp [VoucherResource.create, hc]
  · intro m cl
    cases hc : cl.getVoucherDetails (voucherGetRequest m) <;>
      simp [VoucherResource.read, hc]
  · intro dec cl
    rfl
  · intro m cl
    cases hc : cl.deleteVoucher (voucherDeleteRequest m) <;>
      simp [VoucherResource.delete, hc]

/-- C3: in every Create/Read/Update/Delete handler of every registered
resource, when the single SDK call fails with error `e` the handler adds
exactly one error diagnostic — summary "Client Error", detail the
handler's fixed message with `e` appended — performs no further SDK call
(the call list stays that single call) and returns without writing state.
(`VoucherResource.Update` performs no SDK call at all, so no such case
arises for it.) -/
theorem client_error_single_diagnostic :
    (∀ m cl e, cl.createNetwork (networkCreateRequest m) = .error e →
      NetworkResource.create (.ok m) cl =
        ⟨[⟨"Client Error", "Unable to create network: " ++ e, none⟩], none,
          [.createNetwork (networkCreateRequest m)]⟩) ∧
    (∀ m cl e, cl.getNetworkDetails (networkGetRequest m) = .error e →
      NetworkResource.read (.ok m) cl =
        ⟨[⟨"Client Error", "Unable to read network: " ++ e, none⟩], none,
          [.getNetworkDetails (networkGetRequest m)]⟩) ∧
    (∀ m cl e, cl.updateNetwork (networkUpdateRequest m) = .error e →
      NetworkResource.update (.ok m) cl =
        ⟨[⟨"Client Error", "Unable to update network: " ++ e, none⟩], none,
          [.updateNetwork (networkUpdateRequest m)]⟩) ∧
    (∀ m cl e, cl.deleteNetwork (networkDeleteRequest m) = .error e →
      NetworkResource.delete (.ok m) cl =
        ⟨[⟨"Client Error", "Unable to delete network: " ++ e, none⟩], none,
          [.deleteNetwork (networkDeleteRequest m)]⟩) ∧
    (∀ m cl e, cl.createWifiBroadcast (wifiBroadcastCreateRequest m) = .error e →
      WifiBroadcastResource.create (.ok m) cl =
        ⟨[⟨"Client Error", "Unable to create WiFi broadcast: " ++ e, none⟩], none,
          [.createWifiBroadcast (wifiBroadcastCreateRequest m)]⟩) ∧
    (∀ m cl e, cl.getWifiBroadcastDetails (wifiBroadcastGetRequest m) = .error e →
      WifiBroadcastResource.read (.ok m) cl =
        ⟨[⟨"Client Error", "Unable to read WiFi broadcast: " ++ e, none⟩], none,
          [.getWifiBroadcastDetails (wifiBroadcastGetRequest m)]⟩) ∧
    (∀ m cl e, cl.updateWifiBroadcast (wifiBroadcastUpdateRequest m) = .error e →
      WifiBroadcastResource.update (.ok m) cl =
        ⟨[⟨"Client Error", "Unable to update WiFi broadcast: " ++ e, none⟩], none,
          [.updateWifiBroadcast (wifiBroadcastUpdateRequest m)]⟩) ∧
    (∀ m cl e, cl.deleteWifiBroadcast (wifiBroadcastDeleteRequest m) = .error e →
      WifiBroadcastResource.delete (.ok m) cl =
        ⟨[⟨"Client Error", "Unable to delete WiFi broadcast: " ++ e, none⟩], none,
          [.deleteWifiBroadcast (wifiBroadcastDeleteRequest m)]⟩) ∧
    (∀ m cl e, cl.createACLRule (aclRuleCreateRequest m) = .error e →
      ACLRuleResource.create (.ok m) cl =
        ⟨[⟨"Client Error", "Unable to create ACL rule: " ++ e, none⟩], none,
          [.createACLRule (aclRuleCreateRequest m)]⟩) ∧
    (∀ m cl e, cl.getACLRule (aclRuleGetRequest m) = .error e →
      ACLRuleResource.read (.ok m) cl =
        ⟨[⟨"Client Error", "Unable to read ACL rule: " ++ e, none⟩], none,
          [.getACLRule (aclRuleGetRequest m)]⟩) ∧
    (∀ m cl e, cl.updateACLRule (aclRuleUpdateRequest m) = .error e →
      ACLRuleResource.update (.ok m) cl =
        ⟨[⟨"Client Error", "Unable to update ACL rule: " ++ e, none⟩], none,
          [.updateACLRule (aclRuleUpdateRequest m)]⟩) ∧
    (∀ m cl e, cl.deleteACLRule (aclRuleDeleteRequest m) = .error e →
      ACLRuleResource.delete (.ok m) cl =
        ⟨[⟨"Client Error", "Unable to delete ACL rule: " ++ e, none⟩], none,
          [.deleteACLRule (aclRuleDeleteRequest m)]⟩) ∧
    (∀ m cl e, cl.createDNSPolicy (dnsPolicyCreateRequest m) = .error e →
      DNSPolicyResource.create (.ok m) cl =
        ⟨[⟨"Client Error", "Unable to create DNS policy: " ++ e, none⟩], none,
          [.createDNSPolicy (dnsPolicyCreateRequest m)]⟩) ∧
    (∀ m cl e, cl.getDNSPolicy (dnsPolicyGetRequest m) = .error e →
      DNSPolicyResource.read (.ok m) cl =
        ⟨[⟨"Client Error", "Unable to read DNS policy: " ++ e, none⟩], none,
          [.getDNSPolicy (dnsPolicyGetRequest m)]⟩) ∧
    (∀ m cl e, cl.updateDNSPolicy (dnsPolicyUpdateRequest m) = .error e →
      DNSPolicyResource.update (.ok m) cl =
        ⟨[⟨"Client Error", "Unable to update DNS policy: " ++ e, none⟩], none,
          [.updateDNSPolicy (dnsPolicyUpdateRequest m)]⟩) ∧
    (∀ m cl e, cl.deleteDNSPolicy (dnsPolicyDeleteRequest m) = .error e →
      DNSPolicyResource.delete (.ok m) cl =
        ⟨[⟨"Client Error", "Unable to delete DNS policy: " ++ e, none⟩], none,
          [.deleteDNSPolicy (dnsPolicyDeleteRequest m)]⟩) ∧
    (∀ m cl ids e, firewallZoneNetworkIDs m = .ok ids →
      cl.createFirewallZone (firewallZoneCreateRequest m ids) = .error e →
      FirewallZoneResource.create (.ok m) cl =
        ⟨[⟨"Client Error", "Unable to create firewall zone: " ++ e, none⟩], none,
          [.createFirewallZone (firewallZoneCreateRequest m ids)]⟩) ∧
    (∀ m cl e, cl.getFirewallZone (firewallZoneGetRequest m) = .error e →
      FirewallZoneResource.read (.ok m) cl =
        ⟨[⟨"Client Error", "Unable to read firewall zone: " ++ e, none⟩], none,
          [.getFirewallZone (firewallZoneGetRequest m)]⟩) ∧
    (∀ m cl ids e, firewallZoneNetworkIDs m = .ok ids →
      cl.updateFirewallZone (firewallZoneUpdateRequest m ids) = .error e →
      FirewallZoneResource.update (.ok m) cl =
        ⟨[⟨"Client Error", "Unable to update firewall zone: " ++ e, none⟩], none,
          [.updateFirewallZone (firewallZoneUpdateRequest m ids)]⟩) ∧
    (∀ m cl e, cl.deleteFirewallZone (firewallZoneDeleteRequest m) = .error e →
      FirewallZoneResource.delete (.ok m) cl =
        ⟨[⟨"Client Error", "Unable to delete firewall zone: " ++ e, none⟩], none,
          [.deleteFirewallZone (firewallZoneDeleteRequest m)]⟩) ∧
    (∀ m cl e, cl.createFirewallPolicy (firewallPolicyCreateRequest m) = .error e →
      FirewallPolicyResource.create (.ok m) cl =
        ⟨[⟨"Client Error", "Unable to create firewall policy: " ++ e, none⟩], none,
          [.createFirewallPolicy (firewallPolicyCreateRequest m)]⟩) ∧
    (∀ m cl e, cl.getFirewallPolicy (firewallPolicyGetRequest m) = .error e →
      FirewallPolicyResource.read (.ok m) cl =
        ⟨[⟨"Client Error", "Unable to read firewall policy: " ++ e, none⟩], none,
          [.getFirewallPolicy (firewallPolicyGetRequest m)]⟩) ∧
    (∀ m cl e, cl.updateFirewallPolicy (firewallPolicyUpdateRequest m) = .error e →
      FirewallPolicyResource.update (.ok m) cl =
        ⟨[⟨"Client Error", "Unable to update firewall policy: " ++ e, none⟩], none,
          [.updateFirewallPolicy (firewallPolicyUpdateRequest m)]⟩) ∧
    (∀ m cl e, cl.deleteFirewallPolicy (firewallPolicyDeleteRequest m) = .error e →
      FirewallPolicyResource.delete (.ok m) cl =
        ⟨[⟨"Client Error", "Unable to delete firewall policy: " ++ e, none⟩], none,
          [.deleteFirewallPolicy (firewallPolicyDeleteRequest m)]⟩) ∧
    (∀ m cl e, cl.createTrafficMatchingList (trafficMatchingListCreateRequest m) = .error e →
      TrafficMatchingListResource.create (.ok m) cl =
        ⟨[⟨"Client Error", "Unable to create traffic matching list: " ++ e, none⟩], none,
          [.createTrafficMatchingList (trafficMatchingListCreateRequest m)]⟩) ∧
    (∀ m cl e, cl.getTrafficMatchingList (trafficMatchingListGetRequest m) = .error e →
      TrafficMatchingListResource.read (.ok m) cl =
        ⟨[⟨"Client Error", "Unable to read traffic matching list: " ++ e, none⟩], none,
          [.getTrafficMatchingList (trafficMatchingListGetRequest m)]⟩) ∧
    (∀ m cl e, cl.updateTrafficMatchingList (trafficMatchingListUpdateRequest m) = .error e →
      TrafficMatchingListResource.update (.ok m) cl =
        ⟨[⟨"Client Error", "Unable to update traffic matching list: " ++ e, none⟩], none,
          [.updateTrafficMatchingList (trafficMatchingListUpdateRequest m)]⟩) ∧
    (∀ m cl e, cl.deleteTrafficMatchingList (trafficMatchingListDeleteRequest m) = .error e →
      TrafficMatchingListResource.delete (.ok m) cl =
        ⟨[⟨"Client Error", "Unable to delete traffic matching list: " ++ e, none⟩], none,
          [.deleteTrafficMatchingList (trafficMatchingListDeleteRequest m)]⟩) ∧
    (∀ m cl e, cl.generateVouchers (voucherCreateRequest m) = .error e →
      VoucherResource.create (.ok m) cl =
        ⟨[⟨"Client Error", "Unable to create voucher: " ++ e, none⟩], none,
          [.generateVouchers (voucherCreateRequest m)]⟩) ∧
    (∀ m cl e, cl.getVoucherDetails (voucherGetRequest m) = .error e →
      VoucherResource.read (.ok m) cl =
        ⟨[⟨"Client Error", "Unable to read voucher: " ++ e, none⟩], none,
          [.getVoucherDetails (voucherGetRequest m)]⟩) ∧
    (∀ m cl e, cl.deleteVoucher (voucherDeleteRequest m) = .error e →
      VoucherResource.delete (.ok m) cl =
        ⟨[⟨"Client Error", "Unable to delete voucher: " ++ e, none⟩], none,
          [.deleteVoucher (voucherDeleteRequest m)]⟩) := by
  refine ⟨?_, ?_, ?_, ?_, ?_, ?_, ?_, ?_, ?_, ?_, ?_, ?_, ?_, ?_, ?_, ?_, ?_,
    ?_, ?_, ?_, ?_, ?_, ?_, ?_, ?_, ?_, ?_, ?_, ?_, ?_, ?_⟩
  · intro m cl e h; simp [NetworkResource.create, h]
  · intro m cl e h; simp [NetworkResource.read, h]
  · intro m cl e h; simp [NetworkResource.update, h]
  · intro m cl e h; simp [NetworkResource.delete, h]
  · intro m cl e h; simp [WifiBroadcastResource.create, h]
  · intro m cl e h; simp [WifiBroadcastResource.read, h]
  · intro m cl e h; simp [WifiBroadcastResource.update, h]
  · intro m cl e h; simp [WifiBroadcastResource.delete, h]
  · intro m cl e h; simp [ACLRuleResource.create, h]
  · intro m cl e h; simp [ACLRuleResource.read, h]
  · intro m cl e h; simp [ACLRuleResource.update, h]
  · intro m cl e h; simp [ACLRuleResource.delete, h]
  · intro m cl e h; simp [DNSPolicyResource.create, h]
  · intro m cl e h; simp [DNSPolicyResource.read, h]
  · intro m cl e h; simp [DNSPolicyResource.update, h]
  · intro m cl e h; simp [DNSPolicyResource.delete, h]
  · intro m cl ids e h hc; simp [FirewallZoneResource.create, h, hc]
  · intro m cl e h; simp [FirewallZoneResource.read, h]
  · intro m cl ids e h hc; simp [FirewallZoneResource.update, h, hc]
  · intro m cl e h; simp [FirewallZoneResource.delete, h]
  · intro m cl e h; simp [FirewallPolicyResource.create, h]
  · intro m cl e h; simp [FirewallPolicyResource.read, h]
  · intro m cl e h; simp [FirewallPolicyResource.update, h]
  · intro m cl e h; simp [FirewallPolicyResource.delete, h]
  · intro m cl e h; simp [TrafficMatchingListResource.create, h]
  · intro m cl e h; simp [TrafficMatchingListResource.read, h]
  · intro m cl e h; simp [TrafficMatchingListResource.update, h]
  · intro m cl e h; simp [TrafficMatchingListResource.delete, h]
  · intro m cl e h; simp [VoucherResource.create, h]
  · intro m cl e h; simp [VoucherResource.read, h]
  · intro m cl e h; simp [VoucherResource.delete, h]

/-- C10: in every resource handler, when decoding the plan/state model
produces error diagnostics the handler returns at once — the decode
diagnostics alone, no SDK call, no `State.Set` — and on any path that
adds a diagnostic (decode failure, list conversion failure, SDK error,
voucher update rejection) the handler never writes Terraform state, so
the state held before the handler ran is left unchanged. -/
theorem no_state_write_on_error :
    (∀ d cl, NetworkResource.create (.error d) cl = ⟨[d], none, []⟩) ∧
    (∀ dec cl, (NetworkResource.create dec cl).diags ≠ [] → (NetworkResource.create dec cl).state = none) ∧
    (∀ d cl, NetworkResource.read (.error d) cl = ⟨[d], none, []⟩) ∧
    (∀ dec cl, (NetworkResource.read dec cl).diags ≠ [] → (NetworkResource.read dec cl).state = none) ∧
    (∀ d cl, NetworkResource.update (.error d) cl = ⟨[d], none, []⟩) ∧
    (∀ dec cl, (NetworkResource.update dec cl).diags ≠ [] → (NetworkResource.update dec cl).state = none) ∧
    (∀ d cl, NetworkResource.delete (.error d) cl = ⟨[d], none, []⟩) ∧
    (∀ dec cl, (NetworkResource.delete dec cl).diags ≠ [] → (NetworkResource.delete dec cl).state = none) ∧
    (∀ d cl, WifiBroadcastResource.create (.error d) cl = ⟨[d], none, []⟩) ∧
    (∀ dec cl, (WifiBroadcastResource.create dec cl).diags ≠ [] → (WifiBroadcastResource.create dec cl).state = none) ∧
    (∀ d cl, WifiBroadcastResource.read (.error d) cl = ⟨[d], none, []⟩) ∧
    (∀ dec cl, (WifiBroadcastResource.read dec cl).diags ≠ [] → (WifiBroadcastResource.read dec cl).state = none) ∧
    (∀ d cl, WifiBroadcastResource.update (.error d) cl = ⟨[d], none, []⟩) ∧
    (∀ dec cl, (WifiBroadcastResource.update dec cl).diags ≠ [] → (WifiBroadcastResource.update dec cl).state = none) ∧
    (∀ d cl, WifiBroadcastResource.delete (.error d) cl = ⟨[d], none, []⟩) ∧
    (∀ dec cl, (WifiBroadcastResource.delete dec cl).diags ≠ [] → (WifiBroadcastResource.delete dec cl).state = none) ∧
    (∀ d cl, ACLRuleResource.create (.error d) cl = ⟨[d], none, []⟩) ∧
    (∀ dec cl, (ACLRuleResource.create dec cl).diags ≠ [] → (ACLRuleResource.create dec cl).state = none) ∧
    (∀ d cl, ACLRuleResource.read (.error d) cl = ⟨[d], none, []⟩) ∧
    (∀ dec cl, (ACLRuleResource.read dec cl).diags ≠ [] → (ACLRuleResource.read dec cl).state = none) ∧
    (∀ d cl, ACLRuleResource.update (.error d) cl = ⟨[d], none, []⟩) ∧
    (∀ dec cl, (ACLRuleResource.update dec cl).diags ≠ [] → (ACLRuleResource.update dec cl).state = none) ∧
    (∀ d cl, ACLRuleResource.delete (.error d) cl = ⟨[d], none, []⟩) ∧
    (∀ dec cl, (ACLRuleResource.delete dec cl).diags ≠ [] → (ACLRuleResource.delete dec cl).state = none) ∧
    (∀ d cl, DNSPolicyResource.create (.error d) cl = ⟨[d], none, []⟩) ∧
    (∀ dec cl, (DNSPolicyResource.create dec cl).diags ≠ [] → (DNSPolicyResource.create dec cl).state = none) ∧
    (∀ d cl, DNSPolicyResource.read (.error d) cl = ⟨[d], none, []⟩) ∧
    (∀ dec cl, (DNSPolicyResource.read dec cl).diags ≠ [] → (DNSPolicyResource.read dec cl).state = none) ∧
    (∀ d cl, DNSPolicyResource.update (.error d) cl = ⟨[d], none, []⟩) ∧
    (∀ dec cl, (DNSPolicyResource.update dec cl).diags ≠ [] → (DNSPolicyResource.update dec cl).state = none) ∧
    (∀ d cl, DNSPolicyResource.delete (.error d) cl = ⟨[d], none, []⟩) ∧
    (∀ dec cl, (DNSPolicyResource.delete dec cl).diags ≠ [] → (DNSPolicyResource.delete dec cl).state = none) ∧
    (∀ d cl, FirewallZoneResource.create (.error d) cl = ⟨[d], none, []⟩) ∧
    (∀ dec cl, (FirewallZoneResource.create dec cl).diags ≠ [] → (FirewallZoneResource.create dec cl).state = none) ∧
    (∀ d cl, FirewallZoneResource.read (.error d) cl = ⟨[d], none, []⟩) ∧
    (∀ dec cl, (FirewallZoneResource.read dec cl).diags ≠ [] → (FirewallZoneResource.read dec cl).state = none) ∧
    (∀ d cl, FirewallZoneResource.update (.error d) cl = ⟨[d], none, []⟩) ∧
    (∀ dec cl, (FirewallZoneResource.update dec cl).diags ≠ [] → (FirewallZoneResource.update dec cl).state = none) ∧
    (∀ d cl, FirewallZoneResource.delete (.error d) cl = ⟨[d], none, []⟩) ∧
    (∀ dec cl, (FirewallZoneResource.delete dec cl).diags ≠ [] → (FirewallZoneResource.delete dec cl).state = none) ∧
    (∀ d cl, FirewallPolicyResource.create (.error d) cl = ⟨[d], none, []⟩) ∧
    (∀ dec cl, (FirewallPolicyResource.create dec cl).diags ≠ [] → (FirewallPolicyResource.create dec cl).state = none) ∧
    (∀ d cl, FirewallPolicyResource.read (.error d) cl = ⟨[d], none, []⟩) ∧
    (∀ dec cl, (FirewallPolicyResource.read dec cl).diags ≠ [] → (FirewallPolicyResource.read dec cl).state = none) ∧
    (∀ d cl, FirewallPolicyResource.update (.error d) cl = ⟨[d], none, []⟩) ∧
    (∀ dec cl, (FirewallPolicyResource.update dec cl).diags ≠ [] → (FirewallPolicyResource.update dec cl).state = none) ∧
    (∀ d cl, FirewallPolicyResource.delete (.error d) cl = ⟨[d], none, []⟩) ∧
    (∀ dec cl, (FirewallPolicyResource.delete dec cl).diags ≠ [] → (FirewallPolicyResource.delete dec cl).state = none) ∧
    (∀ d cl, TrafficMatchingListResource.create (.error d) cl = ⟨[d], none, []⟩) ∧
    (∀ dec cl, (TrafficMatchingListResource.create dec cl).diags ≠ [] → (TrafficMatchingListResource.create dec cl).state = none) ∧
    (∀ d cl, TrafficMatchingListResource.read (.error d) cl = ⟨[d], none, []⟩) ∧
    (∀ dec cl, (TrafficMatchingListResource.read dec cl).diags ≠ [] → (TrafficMatchingListResource.read dec cl).state = none) ∧
    (∀ d cl, TrafficMatchingListResource.update (.error d) cl = ⟨[d], none, []⟩) ∧
    (∀ dec cl, (TrafficMatchingListResource.update dec cl).diags ≠ [] → (TrafficMatchingListResource.update dec cl).state = none) ∧
    (∀ d cl, TrafficMatchingListResource.delete (.error d) cl = ⟨[d], none, []⟩) ∧
    (∀ dec cl, (TrafficMatchingListResource.delete dec cl).diags ≠ [] → (TrafficMatchingListResource.delete dec cl).state = none) ∧
    (∀ d cl, VoucherResource.create (.error d) cl = ⟨[d], none, []⟩) ∧
    (∀ dec cl, (VoucherResource.create dec cl).diags ≠ [] → (VoucherResource.create dec cl).state = none) ∧
    (∀ d cl, VoucherResource.read (.error d) cl = ⟨[d], none, []⟩) ∧
    (∀ dec cl, (VoucherResource.read dec cl).diags ≠ [] → (VoucherResource.read dec cl).state = none) ∧
    (∀ dec cl, (VoucherResource.update dec cl).state = none ∧
      (VoucherResource.update dec cl).calls = []) ∧
    (∀ dec cl, (VoucherResource.update dec cl).diags ≠ [] → (VoucherResource.update dec cl).state = none) ∧
    (∀ d cl, VoucherResource.delete (.error d) cl = ⟨[d], none, []⟩) ∧
    (∀ dec cl, (VoucherResource.delete dec cl).diags ≠ [] → (VoucherResource.delete dec cl).state = none)
    := by
  refine ⟨?_, ?_, ?_, ?_, ?_, ?_, ?_, ?_, ?_, ?_, ?_, ?_, ?_, ?_, ?_, ?_, ?_, ?_, ?_, ?_, ?_, ?_, ?_, ?_, ?_, ?_, ?_, ?_, ?_, ?_, ?_, ?_, ?_, ?_, ?_, ?_, ?_, ?_, ?_, ?_, ?_, ?_, ?_, ?_, ?_, ?_, ?_, ?_, ?_, ?_, ?_, ?_, ?_, ?_, ?_, ?_, ?_, ?_, ?_, ?_, ?_, ?_, ?_, ?_⟩
  · intro d cl
    rfl
  · intro dec cl h
    cases dec with
    | error d => rfl
    | ok m =>
      cases hc : cl.createNetwork (networkCreateRequest m) with
      | error e => simp [NetworkResource.create, hc]
      | ok r => simp [NetworkResource.create, hc] at h
  · intro d cl
    rfl
  · intro dec cl h
    cases dec with
    | error d => rfl
    | ok m =>
      cases hc : cl.getNetworkDetails (networkGetRequest m) with
      | error e => simp [NetworkResource.read, hc]
      | ok r => simp [NetworkResource.read, hc] at h
  · intro d cl
    rfl
  · intro dec cl h
    cases dec with
    | error d => rfl
    | ok m =>
      cases hc : cl.updateNetwork (networkUpdateRequest m) with
      | error e => simp [NetworkResource.update, hc]
      | ok r => simp [NetworkResource.update, hc] at h
  · intro d cl
    rfl
  · intro dec cl h
    cases dec with
    | error d => rfl
    | ok m =>
      cases hc : cl.deleteNetwork (networkDeleteRequest m) with
      | error e => simp [NetworkResource.delete, hc]
      | ok r => simp [NetworkResource.delete, hc] at h
  · intro d cl
    rfl
  · intro dec cl h
    cases dec with
    | error d => rfl
    | ok m =>
      cases hc : cl.createWifiBroadcast (wifiBroadcastCreateRequest m) with
      | error e => simp [WifiBroadcastResource.create, hc]
      | ok r => simp [WifiBroadcastResource.create, hc] at h
  · intro d cl
    rfl
  · intro dec cl h
    cases dec with
    | error d => rfl
    | ok m =>
      cases hc : cl.getWifiBroadcastDetails (wifiBroadcastGetRequest m) with
      | error e => simp [WifiBroadcastResource.read, hc]
      | ok r => simp [WifiBroadcastResource.read, hc] at h
  · intro d cl
    rfl
  · intro dec cl h
    cases dec with
    | error d => rfl
    | ok m =>
      cases hc : cl.updateWifiBroadcast (wifiBroadcastUpdateRequest m) with
      | error e => simp [WifiBroadcastResource.update, hc]
      | ok r => simp [WifiBroadcastResource.update, hc] at h
  · intro d cl
    rfl
  · intro dec cl h
    cases dec with
    | error d => rfl
    | ok m =>
      cases hc : cl.deleteWifiBroadcast (wifiBroadcastDeleteRequest m) with
      | error e => simp [WifiBroadcastResource.delete, hc]
      | ok r => simp [WifiBroadcastResource.delete, hc] at h
  · intro d cl
    rfl
  · intro dec cl h
    cases dec with
    | error d => rfl
    | ok m =>
      cases hc : cl.createACLRule (aclRuleCreateRequest m) with
      | error e => simp [ACLRuleResource.create, hc]
      | ok r => simp [ACLRuleResource.create, hc] at h
  · intro d cl
    rfl
  · intro dec cl h
    cases dec with
    | error d => rfl
    | ok m =>
      cases hc : cl.getACLRule (aclRuleGetRequest m) with
      | error e => simp [ACLRuleResource.read, hc]
      | ok r => simp [ACLRuleResource.read, hc] at h
  · intro d cl
    rfl
  · intro dec cl h
    cases dec with
    | error d => rfl
    | ok m =>
      cases hc : cl.updateACLRule (aclRuleUpdateRequest m) with
      | error e => simp [ACLRuleResource.update, hc]
      | ok r => simp [ACLRuleResource.update, hc] at h
  · intro d cl
    rfl
  · intro dec cl h
    cases dec with
    | error d => rfl
    | ok m =>
      cases hc : cl.deleteACLRule (aclRuleDeleteRequest m) with
      | error e => simp [ACLRuleResource.delete, hc]
      | ok r => simp [ACLRuleResource.delete, hc] at h
  · intro d cl
    rfl
  · intro dec cl h
    cases dec with
    | error d => rfl
    | ok m =>
      cases hc : cl.createDNSPolicy (dnsPolicyCreateRequest m) with
      | error e => simp [DNSPolicyResource.create, hc]
      | ok r => simp [DNSPolicyResource.create, hc] at h
  · intro d cl
    rfl
  · intro dec cl h
    cases dec with
    | error d => rfl
    | ok m =>
      cases hc : cl.getDNSPolicy (dnsPolicyGetRequest m) with
      | error e => simp [DNSPolicyResource.read, hc]
      | ok r => simp [DNSPolicyResource.read, hc] at h
  · intro d cl
    rfl
  · intro dec cl h
    cases dec with
    | error d => rfl
    | ok m =>
      cases hc : cl.updateDNSPolicy (dnsPolicyUpdateRequest m) with
      | error e => simp [DNSPolicyResource.update, hc]
      | ok r => simp [DNSPolicyResource.update, hc] at h
  · intro d cl
    rfl
  · intro dec cl h
    cases dec with
    | error d => rfl
    | ok m =>
      cases hc : cl.deleteDNSPolicy (dnsPolicyDeleteRequest m) with
      | error e => simp [DNSPolicyResource.delete, hc]
      | ok r => simp [DNSPolicyResource.delete, hc] at h
  · intro d cl
    rfl
  · intro dec cl h
    cases dec with
    | error d => rfl
    | ok m =>
      cases hn : firewallZoneNetworkIDs m with
      | error d => simp [FirewallZoneResource.create, hn]
      | ok ids =>
        cases hc : cl.createFirewallZone (firewallZoneCreateRequest m ids) with
        | error e => simp [FirewallZoneResource.create, hn, hc]
        | ok r => simp [FirewallZoneResource.create, hn, hc] at h
  · intro d cl
    rfl
  · intro dec cl h
    cases dec with
    | error d => rfl
    | ok m =>
      cases hc : cl.getFirewallZone (firewallZoneGetRequest m) with
      | error e => simp [FirewallZoneResource.read, hc]
      | ok r => simp [FirewallZoneResource.read, hc] at h
  · intro d cl
    rfl
  · intro dec cl h
    cases dec with
    | error d => rfl
    | ok m =>
      cases hn : firewallZoneNetworkIDs m with
      | error d => simp [FirewallZoneResource.update, hn]
      | ok ids =>
        cases hc : cl.updateFirewallZone (firewallZoneUpdateRequest m ids) with
        | error e => simp [FirewallZoneResource.update, hn, hc]
        | ok r => simp [FirewallZoneResource.update, hn, hc] at h
  · intro d cl
    rfl
  · intro dec cl h
    cases dec with
    | error d => rfl
    | ok m =>
      cases hc : cl.deleteFirewallZone (firewallZoneDeleteRequest m) with
      | error e => simp [FirewallZoneResource.delete, hc]
      | ok r => simp [FirewallZoneResource.delete, hc] at h
  · intro d cl
    rfl
  · intro dec cl h
    cases dec with
    | error d => rfl
    | ok m =>
      cases hc : cl.createFirewallPolicy (firewallPolicyCreateRequest m) with
      | error e => simp [FirewallPolicyResource.create, hc]
      | ok r => simp [FirewallPolicyResource.create, hc] at h
  · intro d cl
    rfl
  · intro dec cl h
    cases dec with
    | error d => rfl
    | ok m =>
      cases hc : cl.getFirewallPolicy (firewallPolicyGetRequest m) with
      | error e => simp [FirewallPolicyResource.read, hc]
      | ok r => simp [FirewallPolicyResource.read, hc] at h
  · intro d cl
    rfl
  · intro dec cl h
    cases dec with
    | error d => rfl
    | ok m =>
      cases hc : cl.updateFirewallPolicy (firewallPolicyUpdateRequest m) with
      | error e => simp [FirewallPolicyResource.update, hc]
      | ok r => simp [FirewallPolicyResource.update, hc] at h
  · intro d cl
    rfl
  · intro dec cl h
    cases dec with
    | error d => rfl
    | ok m =>
      cases hc : cl.deleteFirewallPolicy (firewallPolicyDeleteRequest m) with
      | error e => simp [FirewallPolicyResource.delete, hc]
      | ok r => simp [FirewallPolicyResource.delete, hc] at h
  · intro d cl
    rfl
  · intro dec cl h
    cases dec with
    | error d => rfl
    | ok m =>
      cases hc : cl.createTrafficMatchingList (trafficMatchingListCreateRequest m) with
      | error e => simp [TrafficMatchingListResource.create, hc]
      | ok r => simp [TrafficMatchingListResource.create, hc] at h
  · intro d cl
    rfl
  · intro dec cl h
    cases dec with
    | error d => rfl
    | ok m =>
      cases hc : cl.getTrafficMatchingList (trafficMatchingListGetRequest m) with
      | error e => simp [TrafficMatchingListResource.read, hc]
      | ok r => simp [TrafficMatchingListResource.read, hc] at h
  · intro d cl
    rfl
  · intro dec cl h
    cases dec with
    | error d => rfl
    | ok m =>
      cases hc : cl.updateTrafficMatchingList (trafficMatchingListUpdateRequest m) with
      | error e => simp [TrafficMatchingListResource.update, hc]
      | ok r => simp [TrafficMatchingListResource.update, hc] at h
  · intro d cl
    rfl
  · intro dec cl h
    cases dec with
    | error d => rfl
    | ok m =>
      cases hc : cl.deleteTrafficMatchingList (trafficMatchingListDeleteRequest m) with
      | error e => simp [TrafficMatchingListResource.delete, hc]
      | ok r => simp [TrafficMatchingListResource.delete, hc] at h
  · intro d cl
    rfl
  · intro dec cl h
    cases dec with
    | error d => rfl
    | ok m =>
      cases hc : cl.generateVouchers (voucherCreateRequest m) with
      | error e => simp [VoucherResource.create, hc]
      | ok r => simp [VoucherResource.create, hc] at h
  · intro d cl
    rfl
  · intro dec cl h
    cases dec with
    | error d => rfl
    | ok m =>
      cases hc : cl.getVoucherDetails (voucherGetRequest m) with
      | error e => simp [VoucherResource.read, hc]
      | ok r => simp [VoucherResource.read, hc] at h
  · intro dec cl
    exact ⟨rfl, rfl⟩
  · intro dec cl h
    rfl
  · intro d cl
    rfl
  · intro dec cl h
    cases dec with
    | error d => rfl
    | ok m =>
      cases hc : cl.deleteVoucher (voucherDeleteRequest m) with
      | error e => simp [VoucherResource.delete, hc]
      | ok r => simp [VoucherResource.delete, hc] at h

/-- C2 counterexample: `NetworkResource.Update` at a concrete plan whose
name is `"a"`, with a client whose `UpdateNetwork` succeeds and returns a
network named `"b"`: the state written is the plan model (name `"a"`),
none of the response's fields reach state — and `NetworkResource.Delete`
at the same input succeeds yet writes no state at all. -/
theorem update_discards_response_cex :
    networkClientB.updateNetwork (networkUpdateRequest networkPlanA) =
      .ok networkResponseB ∧
    networkResponseB.name = "b" ∧
    (NetworkResource.update (.ok networkPlanA) networkClientB).state =
      some networkPlanA ∧
    networkPlanA.name = .value "a" ∧
    (NetworkResource.delete (.ok networkPlanA) networkClientB).state = none := by
  exact ⟨rfl, rfl, rfl, rfl, rfl⟩

/-- C2 (amended): when the single SDK call succeeds, Create handlers
write the plan model augmented with the response's id into state (the
voucher create also stores the first generated voucher's code), Read
handlers write the response's fields into state; Update handlers discard
the SDK response and write the plan model into state unchanged; Delete
handlers never write state. -/
theorem handlers_state_after_success :
    (∀ m cl r, cl.createNetwork (networkCreateRequest m) = .ok r →
      (NetworkResource.create (.ok m) cl).state = some { m with id := .value r.id }) ∧
    (∀ m cl r, cl.createWifiBroadcast (wifiBroadcastCreateRequest m) = .ok r →
      (WifiBroadcastResource.create (.ok m) cl).state = some { m with id := .value r.id }) ∧
    (∀ m cl r, cl.createACLRule (aclRuleCreateRequest m) = .ok r →
      (ACLRuleResource.create (.ok m) cl).state = some { m with id := .value r.id }) ∧
    (∀ m cl r, cl.createDNSPolicy (dnsPolicyCreateRequest m) = .ok r →
      (DNSPolicyResource.create (.ok m) cl).state = some { m with id := .value r.id }) ∧
    (∀ m cl r, cl.createFirewallPolicy (firewallPolicyCreateRequest m) = .ok r →
      (FirewallPolicyResource.create (.ok m) cl).state = some { m with id := .value r.id }) ∧
    (∀ m cl r, cl.createTrafficMatchingList (trafficMatchingListCreateRequest m) = .ok r →
      (TrafficMatchingListResource.create (.ok m) cl).state = some { m with id := .value r.id }) ∧
    (∀ m cl ids r, firewallZoneNetworkIDs m = .ok ids →
      cl.createFirewallZone (firewallZoneCreateRequest m ids) = .ok r →
      (FirewallZoneResource.create (.ok m) cl).state =
        some { m with id := .value r.id }) ∧
    (∀ m cl r v vs, cl.generateVouchers (voucherCreateRequest m) = .ok r →
      r.vouchers = v :: vs →
      (VoucherResource.create (.ok m) cl).state =
        some { m with id := .value v.id, code := .value v.code }) ∧
    (∀ m cl r, cl.getNetworkDetails (networkGetRequest m) = .ok r →
      ((NetworkResource.read (.ok m) cl).state.map NetworkResourceModel.name =
          some (.value r.name) ∧
        (NetworkResource.read (.ok m) cl).state.map NetworkResourceModel.enabled =
          some (.value r.enabled) ∧
        (NetworkResource.read (.ok m) cl).state.map NetworkResourceModel.vlanID =
          some (.value r.vlanID) ∧
        (NetworkResource.read (.ok m) cl).state.map NetworkResourceModel.management =
          some (.value r.management))) ∧
    (∀ m cl r, cl.getWifiBroadcastDetails (wifiBroadcastGetRequest m) = .ok r →
      ((WifiBroadcastResource.read (.ok m) cl).state.map
          WifiBroadcastResourceModel.name = some (.value r.name) ∧
        (WifiBroadcastResource.read (.ok m) cl).state.map
          WifiBroadcastResourceModel.type = some (.value r.type) ∧
        (WifiBroadcastResource.read (.ok m) cl).state.map
          WifiBroadcastResourceModel.enabled = some (.value r.enabled) ∧
        (WifiBroadcastResource.read (.ok m) cl).state.map
          WifiBroadcastResourceModel.hideName = some (.value r.hideName) ∧
        (WifiBroadcastResource.read (.ok m) cl).state.map
          WifiBroadcastResourceModel.clientIsolationEnabled =
            some (.value r.clientIsolationEnabled))) ∧
    (∀ m cl r, cl.getACLRule (aclRuleGetRequest m) = .ok r →
      (ACLRuleResource.read (.ok m) cl).state = some { m with
        type := .value r.type, name := .value r.name
        description := .value r.description, enabled := .value r.enabled
        action := .value r.action }) ∧
    (∀ m cl r, cl.getDNSPolicy (dnsPolicyGetRequest m) = .ok r →
      ((DNSPolicyResource.read (.ok m) cl).state.map
          DNSPolicyResourceModel.type = some (.value r.type) ∧
        (DNSPolicyResource.read (.ok m) cl).state.map
          DNSPolicyResourceModel.enabled = some (.value r.enabled) ∧
        (DNSPolicyResource.read (.ok m) cl).state.map
          DNSPolicyResourceModel.domain = some (.value r.domain) ∧
        (DNSPolicyResource.read (.ok m) cl).state.map
          DNSPolicyResourceModel.ipv4Address = some (.value r.ipv4Address) ∧
        (DNSPolicyResource.read (.ok m) cl).state.map
          DNSPolicyResourceModel.ipv6Address = some (.value r.ipv6Address))) ∧
    (∀ m cl r, cl.getFirewallZone (firewallZoneGetRequest m) = .ok r →
      (FirewallZoneResource.read (.ok m) cl).state = some { m with
        name := .value r.name
        networkIDs := .value (r.networkIDs.map TFValue.value) }) ∧
    (∀ m cl r, cl.getFirewallPolicy (firewallPolicyGetRequest m) = .ok r →
      ((FirewallPolicyResource.read (.ok m) cl).state.map
          FirewallPolicyResourceModel.name = some (.value r.name) ∧
        (FirewallPolicyResource.read (.ok m) cl).state.map
          FirewallPolicyResourceModel.description = some (.value r.description) ∧
        (FirewallPolicyResource.read (.ok m) cl).state.map
          FirewallPolicyResourceModel.enabled = some (.value r.enabled) ∧
        (FirewallPolicyResource.read (.ok m) cl).state.map
          FirewallPolicyResourceModel.loggingEnabled =
            some (.value r.loggingEnabled))) ∧
    (∀ m cl r, cl.getTrafficMatchingList (trafficMatchingListGetRequest m) = .ok r →
      (TrafficMatchingListResource.read (.ok m) cl).state = some { m with
        name := .value r.name, type := .value r.type }) ∧
    (∀ m cl r, cl.getVoucherDetails (voucherGetRequest m) = .ok r →
      (VoucherResource.read (.ok m) cl).state = some { m with
        name := .value r.name, code := .value r.code
        timeLimitMinutes := .value r.timeLimitMinutes }) ∧
    (∀ m cl r, cl.updateNetwork (networkUpdateRequest m) = .ok r →
      (NetworkResource.update (.ok m) cl).state = some m) ∧
    (∀ m cl r, cl.updateWifiBroadcast (wifiBroadcastUpdateRequest m) = .ok r →
      (WifiBroadcastResource.update (.ok m) cl).state = some m) ∧
    (∀ m cl r, cl.updateACLRule (aclRuleUpdateRequest m) = .ok r →
      (ACLRuleResource.update (.ok m) cl).state = some m) ∧
    (∀ m cl r, cl.updateDNSPolicy (dnsPolicyUpdateRequest m) = .ok r →
      (DNSPolicyResource.update (.ok m) cl).state = some m) ∧
    (∀ m cl r, cl.updateFirewallPolicy (firewallPolicyUpdateRequest m) = .ok r →
      (FirewallPolicyResource.update (.ok m) cl).state = some m) ∧
    (∀ m cl r, cl.updateTrafficMatchingList (trafficMatchingListUpdateRequest m) = .ok r →
      (TrafficMatchingListResource.update (.ok m) cl).state = some m) ∧
    (∀ m cl ids r, firewallZoneNetworkIDs m = .ok ids →
      cl.updateFirewallZone (firewallZoneUpdateRequest m ids) = .ok r →
      (FirewallZoneResource.update (.ok m) cl).state = some m) ∧
    (∀ dec cl, (VoucherResource.update dec cl).state = none) ∧
    (∀ m cl, (NetworkResource.delete (.ok m) cl).state = none) ∧
    (∀ m cl, (WifiBroadcastResource.delete (.ok m) cl).state = none) ∧
    (∀ m cl, (ACLRuleResource.delete (.ok m) cl).state = none) ∧
    (∀ m cl, (DNSPolicyResource.delete (.ok m) cl).state = none) ∧
    (∀ m cl, (FirewallZoneResource.delete (.ok m) cl).state = none) ∧
    (∀ m cl, (FirewallPolicyResource.delete (.ok m) cl).state = none) ∧
    (∀ m cl, (TrafficMatchingListResource.delete (.ok m) cl).state = none) ∧
    (∀ m cl, (VoucherResource.delete (.ok m) cl).state = none)
    := by
  refine ⟨?_, ?_, ?_, ?_, ?_, ?_, ?_, ?_, ?_, ?_, ?_, ?_, ?_, ?_, ?_, ?_, ?_, ?_, ?_, ?_, ?_, ?_, ?_, ?_, ?_, ?_, ?_, ?_, ?_, ?_, ?_, ?_⟩
  · intro m cl r h
    simp [NetworkResource.create, h]
  · intro m cl r h
    simp [WifiBroadcastResource.create, h]
  · intro m cl r h
    simp [ACLRuleResource.create, h]
  · intro m cl r h
    simp [DNSPolicyResource.create, h]
  · intro m cl r h
    simp [FirewallPolicyResource.create, h]
  · intro m cl r h
    simp [TrafficMatchingListResource.create, h]
  · intro m cl ids r hn h
    simp [FirewallZoneResource.create, hn, h]
  · intro m cl r v vs h hv
    simp [VoucherResource.create, h, hv]
  · intro m cl r h
    cases hi : r.isolationEnabled <;> cases hj : r.internetAccessEnabled <;>
      cases hk : r.mdnsForwardingEnabled <;>
        simp [NetworkResource.read, h, hi, hj, hk]
  · intro m cl r h
    cases hi : r.network <;> cases hj : r.securityConfiguration <;>
      simp [WifiBroadcastResource.read, h, hi, hj]
  · intro m cl r h
    simp [ACLRuleResource.read, h]
  · intro m cl r h
    cases hi : r.ttlSeconds <;> simp [DNSPolicyResource.read, h, hi]
  · intro m cl r h
    simp [FirewallZoneResource.read, h]
  · intro m cl r h
    cases hi : r.action <;> cases hj : r.source <;> cases hk : r.destination <;>
      simp [FirewallPolicyResource.read, h, hi, hj, hk]
  · intro m cl r h
    simp [TrafficMatchingListResource.read, h]
  · intro m cl r h
    simp [VoucherResource.read, h]
  · intro m cl r h
    simp [NetworkResource.update, h]
  · intro m cl r h
    simp [WifiBroadcastResource.update, h]
  · intro m cl r h
    simp [ACLRuleResource.update, h]
  · intro m cl r h
    simp [DNSPolicyResource.update, h]
  · intro m cl r h
    simp [FirewallPolicyResource.update, h]
  · intro m cl r h
    simp [TrafficMatchingListResource.update, h]
  · intro m cl ids r hn h
    simp [FirewallZoneResource.update, hn, h]
  · intro dec cl
    rfl
  · intro m cl
    cases hc : cl.deleteNetwork (networkDeleteRequest m) <;> simp [NetworkResource.delete, hc]
  · intro m cl
    cases hc : cl.deleteWifiBroadcast (wifiBroadcastDeleteRequest m) <;> simp [WifiBroadcastResource.delete, hc]
  · intro m cl
    cases hc : cl.deleteACLRule (aclRuleDeleteRequest m) <;> simp [ACLRuleResource.delete, hc]
  · intro m cl
    cases hc : cl.deleteDNSPolicy (dnsPolicyDeleteRequest m) <;> simp [DNSPolicyResource.delete, hc]
  · intro m cl
    cases hc : cl.deleteFirewallZone (firewallZoneDeleteRequest m) <;> simp [FirewallZoneResource.delete, hc]
  · intro m cl
    cases hc : cl.deleteFirewallPolicy (firewallPolicyDeleteRequest m) <;> simp [FirewallPolicyResource.delete, hc]
  · intro m cl
    cases hc : cl.deleteTrafficMatchingList (trafficMatchingListDeleteRequest m) <;> simp [TrafficMatchingListResource.delete, hc]
  · intro m cl
    cases hc : cl.deleteVoucher (voucherDeleteRequest m) <;>
      simp [VoucherResource.delete, hc]

/-- C5: the `CreateFirewallZoneRequest` that `FirewallZoneResource.Create`
passes to the SDK copies the plan field-by-field: `SiteID` is the plan's
`site_id` string, `Name` the plan's `name` string, `NetworkIDs` the
elements of the plan's `network_ids` list — and the nil slice when that
attribute is null.  The single call the handler performs carries exactly
that request. -/
theorem firewall_zone_create_request_fields :
    (∀ m, m.networkIDs = .null → firewallZoneNetworkIDs m = .ok none) ∧
    (∀ m ss, m.networkIDs = .value (ss.map TFValue.value) →
      firewallZoneNetworkIDs m = .ok (some ss)) ∧
    (∀ m ids, firewallZoneCreateRequest m ids =
      ⟨m.siteID.valueString, m.name.valueString, ids⟩) ∧
    (∀ m cl ids, firewallZoneNetworkIDs m = .ok ids →
      (FirewallZoneResource.create (.ok m) cl).calls =
        [.createFirewallZone (firewallZoneCreateRequest m ids)]) := by
  refine ⟨?_, ?_, ?_, ?_⟩
  · intro m h
    simp [firewallZoneNetworkIDs, h, TFValue.isNull]
  · intro m ss h
    simp [firewallZoneNetworkIDs, h, TFValue.isNull,
      elementsAsStrings_map_value, Except.map]
  · intro m ids
    rfl
  · intro m cl ids h
    cases hc : cl.createFirewallZone (firewallZoneCreateRequest m ids) <;>
      simp [FirewallZoneResource.create, h, hc]
